import Mathlib

/-!
Verification of the resilient multi-provider orchestration core.

Shallow embedding of the Python sources:
  src/services/ai_manager.py              (AIManager provider registry)
  src/services/super_orchestrator.py      (SuperOrchestrator pipeline + capability router)
  src/services/production_search_manager.py (ProductionSearchManager + result cache)
  src/routes/analysis.py                  (analyze HTTP route)

Python dictionaries are modelled as association lists with first-key-wins
lookup; Python object values are modelled by the inductive `PyVal`.
Timestamps (`time.time()`) are modelled as integers.  External I/O
(logging, `salvar_etapa`/`salvar_erro` persistence, HTTP calls inside
provider clients) is modelled as side-effect-free; the observable outcome
of calling a provider method is supplied by an environment
(`none` = the call raises, `some v` = the call returns `v`).
-/

/-- Model of a Python value as it flows through the orchestration core. -/
inductive PyVal where
  | none_ : PyVal
  | bool : Bool → PyVal
  | num : Int → PyVal
  | str : String → PyVal
  | list : List PyVal → PyVal
  | dict : List (String × PyVal) → PyVal

namespace PyVal

/-- Python truthiness (`if v:`): None, False, 0, empty string/list/dict are falsy. -/
def truthy : PyVal → Bool
  | none_ => false
  | bool b => b
  | num n => n != 0
  | str s => !s.isEmpty
  | list l => !l.isEmpty
  | dict d => !d.isEmpty

/-- First-key-wins lookup in an association list (Python dict keys are unique). -/
def assocGet (es : List (String × PyVal)) (k : String) : Option PyVal :=
  match es with
  | [] => none
  | (k2, v) :: rest => if k2 = k then some v else assocGet rest k

/-- `d.get(k, default)` on a value already known to be a dict. -/
def getD (v : PyVal) (k : String) (dflt : PyVal) : PyVal :=
  match v with
  | dict es => (assocGet es k).getD dflt
  | _ => none_

/-- `d.get(k)` (default None) on a value already known to be a dict. -/
def get (v : PyVal) (k : String) : PyVal := getD v k none_

/-- `v == "s"` for a string literal on the right (Python equality). -/
def isStr (v : PyVal) (s : String) : Bool :=
  match v with
  | str t => t = s
  | _ => false

/-- Is the value a dict (`isinstance(v, dict)`)? -/
def isDict : PyVal → Bool
  | dict _ => true
  | _ => false

/-- `a or b` in Python: `a` if truthy, else `b`. -/
def pyOr (a b : PyVal) : PyVal := if a.truthy then a else b

/-- Rendering used for f-string interpolation (`str()`); containers are
rendered schematically, which is enough because no theorem inspects an
interpolated container rendering. -/
def toStr : PyVal → String
  | none_ => "None"
  | bool b => if b then "True" else "False"
  | num n => toString n
  | str s => s
  | list _ => "[...]"
  | dict _ => "\x7b...\x7d"

end PyVal

/-!
Raising operations.  Several Python operations used by the orchestrator
raise on ill-typed operands (`.get` on a non-dict raises AttributeError,
`len` on a number raises TypeError, ...).  They are modelled in
`Except String`; every stage helper catches at its own boundary, matching
the `try/except` structure of the source.
-/

/-- `v.get(k, default)` raising AttributeError when `v` is not a dict. -/
def pyGetE (v : PyVal) (k : String) (dflt : PyVal) : Except String PyVal :=
  match v with
  | .dict es => .ok ((PyVal.assocGet es k).getD dflt)
  | _ => .error ("AttributeError: object has no attribute get (key " ++ k ++ ")")

/-- `len(v)` raising TypeError on non-sized values. -/
def pyLenE (v : PyVal) : Except String Nat :=
  match v with
  | .str s => .ok s.length
  | .list l => .ok l.length
  | .dict d => .ok d.length
  | _ => .error "TypeError: object has no len"

/-- `v > n` for an int literal, raising TypeError on non-numeric `v`
(Python bools compare as ints). -/
def pyGtE (v : PyVal) (n : Int) : Except String Bool :=
  match v with
  | .num m => .ok (m > n)
  | .bool b => .ok ((if b then (1 : Int) else 0) > n)
  | _ => .error "TypeError: unorderable types"

/-- Iterating a Python value (`for x in v`): lists yield elements, strings
yield one-character strings, dicts yield their keys; other values raise. -/
def pyIterE (v : PyVal) : Except String (List PyVal) :=
  match v with
  | .list l => .ok l
  | .str s => .ok (s.toList.map (fun c => PyVal.str c.toString))
  | .dict d => .ok (d.map (fun e => PyVal.str e.1))
  | _ => .error "TypeError: object is not iterable"

/-- `v.lower()` raising AttributeError on non-strings. -/
def pyLowerE (v : PyVal) : Except String String :=
  match v with
  | .str s => .ok s.toLower
  | _ => .error "AttributeError: object has no attribute lower"

/-- Numeric reading with a default, used only for sort keys whose
producing code always stores numbers (see `_enrich_results_with_scores`). -/
def pyNumD (v : PyVal) (dflt : Int) : Int :=
  match v with
  | .num m => m
  | .bool b => if b then 1 else 0
  | _ => dflt

/-- `d[k] = v` on a dict model: overwrite in place or append. -/
def assocSet (es : List (String × PyVal)) (k : String) (v : PyVal) :
    List (String × PyVal) :=
  match es with
  | [] => [(k, v)]
  | (k2, w) :: rest => if k2 = k then (k2, v) :: rest else (k2, w) :: assocSet rest k v

/-- `d[k] = v` lifted to `PyVal` (only ever applied to dicts in the model). -/
def pyDictSet (v : PyVal) (k : String) (x : PyVal) : PyVal :=
  match v with
  | .dict es => .dict (assocSet es k x)
  | w => w

/-!
## AIManager provider registry (src/services/ai_manager.py)
-/

/-- One entry of `AIManager.providers` (the `client`/`model` fields carry
no health information and are omitted; `enabled` is kept although the
registry logic never reads it). -/
structure AIProvider where
  available : Bool
  priority : Nat
  error_count : Nat
  max_errors : Nat
  last_success : Option Int
  consecutive_failures : Nat
  enabled : Bool
  deriving Repr, DecidableEq

/-- The registry, in dict insertion order. -/
abbrev AIRegistry := List (String × AIProvider)

/-- Module-level import-success flags (HAS_GEMINI, HAS_GROQ_CLIENT, HAS_OPENAI). -/
structure LibFlags where
  hasGemini : Bool
  hasGroqClient : Bool
  hasOpenai : Bool
  deriving Repr, DecidableEq

/-- Python truthiness of `provider.get('last_success')` (None and 0 are falsy). -/
def lastSuccessTruthy : Option Int → Bool
  | none => false
  | some t => t != 0

/-- `current_time - provider['last_success'] > 300` (the 5 minute cooldown). -/
def cooldownElapsed (currentTime : Int) : Option Int → Bool
  | none => false
  | some t => decide (currentTime - t > 300)

/-- The elif-chain of `get_best_provider` deciding whether a re-probed
provider may be marked available again. -/
def canReenable (flags : LibFlags) (name : String) : Bool :=
  if name = "gemini" then flags.hasGemini
  else if name = "groq" then flags.hasGroqClient
  else if name = "openai" then flags.hasOpenai
  else if name = "huggingface" then true
  else false

/-- The per-provider body of the re-probe loop at the top of
`AIManager.get_best_provider`: an unavailable provider with a truthy
`last_success` older than the cooldown gets its counters zeroed and, when
the matching library flag is set, is marked available again. -/
def reprobeStep (flags : LibFlags) (currentTime : Int) (entry : String × AIProvider) :
    String × AIProvider :=
  let name := entry.1
  let p := entry.2
  if !p.available && lastSuccessTruthy p.last_success
      && cooldownElapsed currentTime p.last_success then
    (name, { p with error_count := 0, consecutive_failures := 0,
                    available := canReenable flags name })
  else
    (name, p)

/-- Filter of `get_best_provider`: `available and consecutive_failures < max_errors`. -/
def healthyFilter (e : String × AIProvider) : Bool :=
  e.2.available && decide (e.2.consecutive_failures < e.2.max_errors)

/-- Sort key `(priority, consecutive_failures)`. -/
def provKey (p : AIProvider) : Nat × Nat := (p.priority, p.consecutive_failures)

/-- Strict lexicographic order on sort keys. -/
def keyLt (a b : Nat × Nat) : Bool :=
  decide (a.1 < b.1) || (decide (a.1 = b.1) && decide (a.2 < b.2))

/-- Head of Python's stable sort by `(priority, consecutive_failures)`:
the first list element with minimal key. -/
def pickFirstMin : List (String × AIProvider) → Option (String × AIProvider)
  | [] => none
  | e :: es =>
      some (es.foldl (fun best x => if keyLt (provKey x.2) (provKey best.2) then x else best) e)

/-- `AIManager.get_best_provider`: re-probe, filter, global counter reset
when the filtered set is empty (note: the reset zeroes counters but does
not touch `available`), then pick by `(priority, consecutive_failures)`.
Returns the chosen provider name and the mutated registry. -/
def get_best_provider (flags : LibFlags) (currentTime : Int) (providers : AIRegistry) :
    Option String × AIRegistry :=
  let ps := providers.map (reprobeStep flags currentTime)
  let avail := ps.filter healthyFilter
  if avail.isEmpty then
    let ps2 := ps.map (fun e => (e.1, { e.2 with error_count := 0, consecutive_failures := 0 }))
    let avail2 := ps2.filter (fun e => e.2.available)
    ((pickFirstMin avail2).map (·.1), ps2)
  else
    ((pickFirstMin avail).map (·.1), ps)

/-- Per-provider body of `AIManager._record_failure`. -/
def record_failure_p (p : AIProvider) : AIProvider :=
  let q := { p with error_count := p.error_count + 1,
                    consecutive_failures := p.consecutive_failures + 1 }
  if q.consecutive_failures ≥ q.max_errors then { q with available := false } else q

/-- `AIManager._record_failure` (no-op for unknown names). -/
def record_failure (name : String) (providers : AIRegistry) : AIRegistry :=
  providers.map (fun e => if e.1 = name then (e.1, record_failure_p e.2) else e)

/-- Per-provider body of `AIManager._record_success`. -/
def record_success_p (now : Int) (p : AIProvider) : AIProvider :=
  { p with consecutive_failures := 0, last_success := some now, available := true }

/-- `AIManager._record_success` (no-op for unknown names). -/
def record_success (name : String) (now : Int) (providers : AIRegistry) : AIRegistry :=
  providers.map (fun e => if e.1 = name then (e.1, record_success_p now e.2) else e)

/-- The registry built by `AIManager.__init__` before any client
initialization succeeds (no API keys configured): all four providers
registered, none available. -/
def initialAIRegistry : AIRegistry :=
  [ ("gemini", { available := false, priority := 1, error_count := 0, max_errors := 2,
                 last_success := none, consecutive_failures := 0, enabled := true }),
    ("groq", { available := false, priority := 2, error_count := 0, max_errors := 2,
               last_success := none, consecutive_failures := 0, enabled := true }),
    ("openai", { available := false, priority := 3, error_count := 0, max_errors := 2,
                 last_success := none, consecutive_failures := 0, enabled := true }),
    ("huggingface", { available := false, priority := 4, error_count := 0, max_errors := 3,
                      last_success := none, consecutive_failures := 0, enabled := true }) ]

/-!
## Capability router (SuperOrchestrator._safe_call_service_method)

A service call site is modelled by `SafeCallEnv`: whether the service is
registered (`service_name in self.services`) and, for each entry of the
introspected operation table, the observable outcome of calling it with
this call site's arguments (`none` = the call raises, `some v` = returns `v`).
-/

/-- Environment of one `_safe_call_service_method` call site. -/
structure SafeCallEnv where
  registered : Bool
  table : List (String × Option PyVal)

/-- `list(available_methods.keys())`. -/
def tableKeys (t : List (String × Option PyVal)) : List String := t.map (·.1)

/-- `pattern in available_methods` / `available_methods[pattern]` (dict lookup). -/
def tableLookup (t : List (String × Option PyVal)) (p : String) : Option (Option PyVal) :=
  match t with
  | [] => none
  | (k, v) :: rest => if k = p then some v else tableLookup rest p

/-- The diagnostic returned when no pattern matched or every matched call
failed (lines 219-224 of super_orchestrator.py). -/
def methodNotFoundDict (serviceName : String) (keys : List String)
    (patterns : List String) : PyVal :=
  .dict [("status", .str "method_not_found"),
         ("error", .str ("Nenhum método válido encontrado para " ++ serviceName)),
         ("available_methods", .list (keys.map PyVal.str)),
         ("tried_patterns", .list (patterns.map PyVal.str))]

/-- The pattern loop of `_safe_call_service_method`: skip patterns absent
from the table; call a present pattern; on raise or falsy result continue;
on a truthy result return it.  Also returns the list of patterns that were
actually called, in call order. -/
def tryPatterns (serviceName : String) (table : List (String × Option PyVal))
    (allPatterns : List String) :
    List String → List String → PyVal × List String
  | [], called => (methodNotFoundDict serviceName (tableKeys table) allPatterns, called)
  | p :: ps, called =>
      match tableLookup table p with
      | none => tryPatterns serviceName table allPatterns ps called
      | some none => tryPatterns serviceName table allPatterns ps (called ++ [p])
      | some (some v) =>
          if v.truthy then (v, called ++ [p])
          else tryPatterns serviceName table allPatterns ps (called ++ [p])

/-- `SuperOrchestrator._safe_call_service_method` together with the trace
of methods actually invoked. -/
def safe_call_service_method (e : SafeCallEnv) (serviceName : String)
    (patterns : List String) : PyVal × List String :=
  if !e.registered then
    (.dict [("status", .str "service_unavailable"),
            ("error", .str ("Serviço " ++ serviceName ++ " não disponível"))], [])
  else
    tryPatterns serviceName e.table patterns patterns []

/-- Result value of `_safe_call_service_method`, trace dropped. -/
def safeCallV (e : SafeCallEnv) (serviceName : String) (patterns : List String) : PyVal :=
  (safe_call_service_method e serviceName patterns).1

/-!
## Pipeline stage helpers (SuperOrchestrator._execute_real_*_async)

Each helper wraps its body in `try/except`; the bodies are modelled in
`Except String` and each wrapper converts an escaped exception into the
helper's stage-local error dict, exactly as in the source.
-/

def websailorPatterns : List String :=
  ["navigate_and_research_deep", "research_deep", "navigate_and_research",
   "research", "search_deep"]

def supadataPatterns : List String :=
  ["search_all_platforms", "search_platforms", "search_all", "search",
   "analyze_platforms"]

def avatarPatterns : List String :=
  ["create_avatar", "analyze_avatar", "build_avatar", "generate_avatar",
   "create_persona"]

def mentalDriversPatterns : List String :=
  ["create_complete_mental_drivers_system", "create_mental_drivers_system",
   "create_drivers_system", "create_mental_drivers", "build_drivers",
   "generate_drivers"]

def visualProofsPatterns : List String :=
  ["generate_visual_proofs", "create_proofs", "generate_proofs",
   "create_visual_proofs", "build_proofs"]

def antiObjectionPatterns : List String :=
  ["create_anti_objection_system", "create_system", "generate_system",
   "build_system", "create_anti_objection", "generate_anti_objection_system",
   "process_objections"]

def prePitchPatterns : List String :=
  ["generate_pre_pitch_system", "create_system", "build_system",
   "generate_system", "create_pre_pitch", "build_pre_pitch",
   "generate_pre_pitch", "process_pre_pitch"]

def futurePredictionPatterns : List String :=
  ["create_predictions", "generate_predictions", "build_predictions",
   "predict_future", "analyze_future_trends", "process_predictions"]

def competitionPatterns : List String :=
  ["analyze_competition", "competition_analysis", "analyze_competitors",
   "market_analysis"]

def insightsPatterns : List String :=
  ["extract_insights", "analyze_content", "extract_data", "process_insights",
   "analyze_insights"]

def keywordsPatterns : List String :=
  ["analyze_keywords", "extract_keywords", "keywords_analysis",
   "process_keywords", "identify_keywords"]

def funnelPatterns : List String :=
  ["optimize_sales_funnel", "create_funnel", "build_funnel",
   "funnel_optimization", "sales_funnel_analysis"]

def reportPatterns : List String :=
  ["generate_report", "create_report", "build_report",
   "generate_enhanced_report", "create_enhanced_report", "process_report",
   "compile_report"]

/-- Environment of `_execute_real_web_search_async`: the websailor call
site plus the module-global `enhanced_search_coordinator` (present?,
`hasattr(…, 'perform_search')`?, and the outcome of `perform_search`). -/
structure WebSearchEnv where
  websailor : SafeCallEnv
  escPresent : Bool
  escHasPerform : Bool
  escPerform : Option PyVal

def webSearchBody (e : WebSearchEnv) (data : PyVal) : Except String PyVal := do
  let q ← pyGetE data "query" .none_
  let seg ← pyGetE data "segmento" (.str "")
  let prod ← pyGetE data "produto" (.str "")
  let _query := q.pyOr (.str ("mercado " ++ seg.toStr ++ " " ++ prod.toStr ++ " Brasil 2024"))
  if e.websailor.registered then
    let r := safeCallV e.websailor "websailor" websailorPatterns
    if r.truthy then
      let st ← pyGetE r "status" .none_
      if st.isStr "success" then
        return r
  if e.escPresent then
    if e.escHasPerform then
      match e.escPerform with
      | none => pure ()   -- perform_search raised: inner except logs and falls through
      | some sr =>
          if sr.truthy then
            return .dict [("status", .str "success"), ("processed_results", sr),
                          ("source", .str "enhanced_search")]
  return .dict [("status", .str "fallback"), ("processed_results", .list []),
                ("source", .str "fallback_basic")]

def execute_real_web_search (e : WebSearchEnv) (data : PyVal) : PyVal :=
  match webSearchBody e data with
  | .ok v => v
  | .error m => .dict [("status", .str "error"), ("processed_results", .list []),
                       ("error", .str m)]

/-- Environment of `_execute_real_social_analysis_async`: the supadata
call site plus the module-global `enhanced_mcp_fallback_manager`. -/
structure SocialEnv where
  supadata : SafeCallEnv
  mcpPresent : Bool
  mcpSearch : Option PyVal

def socialBody (e : SocialEnv) (data : PyVal) : Except String PyVal := do
  let _seg ← pyGetE data "segmento" (.str "")
  let _prod ← pyGetE data "produto" (.str "")
  if e.supadata.registered then
    let r := safeCallV e.supadata "supadata" supadataPatterns
    if r.truthy then
      let st ← pyGetE r "status" .none_
      if !(st.isStr "method_not_found") then
        let tot ← pyGetE r "total_results" (.num 0)
        let gt ← pyGtE tot 0
        if gt then
          let tot2 ← pyGetE r "total_results" (.num 0)
          return .dict [("status", .str "success"),
                        ("platforms_data", r.pyOr (.dict [])),
                        ("total_posts", tot2), ("source", .str "supadata")]
  if e.mcpPresent then
    match e.mcpSearch with
    | none => throw "enhanced_social_search raised"
    | some m =>
        let tot ← pyGetE m "total_results" (.num 0)
        let gt ← pyGtE tot 0
        if gt then
          let totv ← pyGetE m "total_results" (.num 0)
          return .dict [("status", .str "success"), ("platforms_data", m),
                        ("total_posts", totv),
                        ("source", .str "enhanced_mcp_fallback")]
  return .dict [("status", .str "limited"), ("platforms_data", .dict []),
                ("total_posts", .num 0),
                ("error", .str "Nenhum serviço de redes sociais disponível"),
                ("message", .str "Configure APIs reais ou MCPs para obter dados sociais")]

def execute_real_social_analysis (e : SocialEnv) (data : PyVal) : PyVal :=
  match socialBody e data with
  | .ok v => v
  | .error m => .dict [("status", .str "error"), ("total_posts", .num 0),
                       ("error", .str m)]

def avatarBody (ai : SafeCallEnv) (web _social data : PyVal) : Except String PyVal := do
  if ai.registered then
    let r := safeCallV ai "ai_manager" avatarPatterns
    if r.truthy then
      let st ← pyGetE r "status" .none_
      if st.isStr "success" then
        return r
  let seg ← pyGetE data "segmento" (.str "Profissional")
  let pr ← pyGetE web "processed_results" (.list [])
  let n ← pyLenE pr
  return .dict [("status", .str "success"),
    ("nome_ficticio", .str ("Avatar " ++ seg.toStr)),
    ("dores_viscerais_unificadas",
      .list [.str "Falta de tempo", .str "Dificuldade em decidir"]),
    ("desejos_secretos_unificados",
      .list [.str "Reconhecimento", .str "Estabilidade"]),
    ("objecoes_principais", .list [.str "Preço alto", .str "Falta de confiança"]),
    ("fonte_dados", .dict [("data_real", .bool true), ("web_sources", .num n)])]

def execute_real_avatar_analysis (ai : SafeCallEnv) (web social data : PyVal) : PyVal :=
  match avatarBody ai web social data with
  | .ok v => v
  | .error m => .dict [("status", .str "error"), ("error", .str m)]

def mentalDriversFallback : PyVal :=
  .dict [("status", .str "fallback"), ("drivers_customizados", .list [])]

def mentalDriversBody (e : SafeCallEnv) (_avatar data : PyVal) (sid : String) :
    Except String PyVal := do
  if !e.registered then
    return mentalDriversFallback
  let seg ← pyGetE data "segmento" .none_
  let prod ← pyGetE data "produto" .none_
  let _context := PyVal.dict [("segmento", seg), ("produto", prod),
                              ("session_id", .str sid)]
  let r := safeCallV e "mental_drivers" mentalDriversPatterns
  return r.pyOr mentalDriversFallback

def execute_real_mental_drivers (e : SafeCallEnv) (avatar data : PyVal)
    (sid : String) : PyVal :=
  match mentalDriversBody e avatar data sid with
  | .ok v => v
  | .error m => .dict [("status", .str "error"), ("drivers_customizados", .list []),
                       ("error", .str m)]

def visualProofsBody (e : SafeCallEnv) (_drivers data : PyVal) : Except String PyVal := do
  if !e.registered then
    return .dict [("status", .str "fallback"), ("proofs", .list [])]
  let _seg ← pyGetE data "segmento" (.str "")
  let _prod ← pyGetE data "produto" (.str "")
  let r := safeCallV e "visual_proofs" visualProofsPatterns
  if r.truthy then
    let st ← pyGetE r "status" .none_
    if !(st.isStr "method_not_found") then
      return r
  let seg2 ← pyGetE data "segmento" (.str "mercado")
  let prod2 ← pyGetE data "produto" (.str "produto")
  return .dict [("status", .str "fallback"),
    ("proofs", .list [.dict [("tipo", .str "estatistica"),
      ("titulo", .str ("Dados sobre " ++ seg2.toStr)),
      ("descricao", .str ("Análise baseada nos drivers para " ++ prod2.toStr)),
      ("fonte", .str "Análise própria")]])]

def execute_real_visual_proofs (e : SafeCallEnv) (drivers data : PyVal) : PyVal :=
  match visualProofsBody e drivers data with
  | .ok v => v
  | .error m => .dict [("status", .str "error"), ("proofs", .list []),
                       ("error", .str m)]

def antiObjectionBody (e : SafeCallEnv) (drivers avatar data : PyVal) :
    Except String PyVal := do
  if !e.registered then
    return .dict [("status", .str "fallback"), ("sistema_anti_objecao", .dict [])]
  let prod ← pyGetE data "produto" (.str "")
  let _payload := PyVal.dict [("avatar", avatar), ("produto", prod),
                              ("drivers", drivers)]
  let r := safeCallV e "anti_objection" antiObjectionPatterns
  if r.truthy then
    let st ← pyGetE r "status" .none_
    if !(st.isStr "method_not_found") then
      return r
  let objections ← pyGetE avatar "objecoes_principais"
      (.list [.str "Preço alto", .str "Falta de confiança"])
  let objList ← pyIterE objections
  return .dict [("status", .str "fallback"),
    ("sistema_anti_objecao", .dict [
      ("objecoes_mapeadas", objections),
      ("respostas_preparadas",
        .list (objList.map (fun o => .str ("Resposta para: " ++ o.toStr)))),
      ("estrategias", .list [.str "Demonstração de valor", .str "Prova social",
                             .str "Garantias"])])]

def execute_real_anti_objection (e : SafeCallEnv) (drivers avatar data : PyVal) : PyVal :=
  match antiObjectionBody e drivers avatar data with
  | .ok v => v
  | .error m => .dict [("status", .str "error"), ("sistema_anti_objecao", .dict []),
                       ("error", .str m)]

def prePitchBody (e : SafeCallEnv) (data : PyVal) : Except String PyVal := do
  if !e.registered then
    return .dict [("status", .str "fallback"), ("sequencias_pre_pitch", .list [])]
  let r := safeCallV e "pre_pitch" prePitchPatterns
  if r.truthy then
    let st ← pyGetE r "status" .none_
    if !(st.isStr "method_not_found") then
      return r
  let prod ← pyGetE data "produto" (.str "produto")
  return .dict [("status", .str "fallback"),
    ("sequencias_pre_pitch", .list [
      .dict [("etapa", .str "Aquecimento"),
             ("conteudo", .str ("Introdução sobre benefícios de " ++ prod.toStr)),
             ("driver_aplicado", .str "Curiosidade")],
      .dict [("etapa", .str "Revelação de problema"),
             ("conteudo", .str "Identificação de dor específica do avatar"),
             ("driver_aplicado", .str "Urgência")],
      .dict [("etapa", .str "Apresentação da solução"),
             ("conteudo", .str ("Como " ++ prod.toStr ++ " resolve o problema")),
             ("driver_aplicado", .str "Autoridade")]])]

def execute_real_pre_pitch (e : SafeCallEnv) (_drivers _antiObj data : PyVal) : PyVal :=
  match prePitchBody e data with
  | .ok v => v
  | .error m => .dict [("status", .str "error"), ("sequencias_pre_pitch", .list []),
                       ("error", .str m)]

def futurePredictionsBody (e : SafeCallEnv) : Except String PyVal := do
  if !e.registered then
    return .dict [("status", .str "fallback"), ("predicoes", .list [])]
  let r := safeCallV e "future_prediction" futurePredictionPatterns
  if r.truthy then
    let st ← pyGetE r "status" .none_
    if !(st.isStr "method_not_found") then
      return r
  return .dict [("status", .str "fallback"), ("predicoes", .list [])]

def execute_real_future_predictions (e : SafeCallEnv) : PyVal :=
  match futurePredictionsBody e with
  | .ok v => v
  | .error m => .dict [("status", .str "error"), ("predicoes", .list []),
                       ("error", .str m)]

def competitionBody (ai : SafeCallEnv) (web data : PyVal) : Except String PyVal := do
  if ai.registered then
    let r := safeCallV ai "ai_manager" competitionPatterns
    if r.truthy then
      let st ← pyGetE r "status" .none_
      if st.isStr "success" then
        return r
  let seg ← pyGetE data "segmento" (.str "mercado")
  let pr ← pyGetE web "processed_results" (.list [])
  let n ← pyLenE pr
  return .dict [("status", .str "success"),
    ("analise_completa", .str ("Análise de concorrência para " ++ seg.toStr)),
    ("fontes_analisadas", .num n)]

def execute_real_competition_analysis (ai : SafeCallEnv) (web data : PyVal) : PyVal :=
  match competitionBody ai web data with
  | .ok v => v
  | .error m => .dict [("status", .str "error"), ("error", .str m)]

def insightsBody (ce : SafeCallEnv) (web social : PyVal) : Except String PyVal := do
  if ce.registered then
    let r := safeCallV ce "content_extractor" insightsPatterns
    if r.truthy then
      let st ← pyGetE r "status" .none_
      if st.isStr "success" then
        return r
  let pr ← pyGetE web "processed_results" (.list [])
  let n ← pyLenE pr
  let posts ← pyGetE social "total_posts" (.num 0)
  return .dict [("status", .str "success"),
    ("insights_completos", .str "Insights baseados nos dados coletados"),
    ("fontes_utilizadas", .dict [("web_sources", .num n), ("social_posts", posts)])]

def execute_real_insights_extraction (ce : SafeCallEnv) (web social : PyVal) : PyVal :=
  match insightsBody ce web social with
  | .ok v => v
  | .error m => .dict [("status", .str "error"), ("error", .str m)]

def keywordsBody (ai ce : SafeCallEnv) (web avatar : PyVal) : Except String PyVal := do
  if ai.registered then
    let r := safeCallV ai "ai_manager" keywordsPatterns
    if r.truthy then
      let st ← pyGetE r "status" .none_
      if st.isStr "success" then
        return r
  if ce.registered then
    let r := safeCallV ce "content_extractor" keywordsPatterns
    if r.truthy then
      let st ← pyGetE r "status" .none_
      if st.isStr "success" then
        return r
  let pr ← pyGetE web "processed_results" (.list [])
  let n ← pyLenE pr
  let nome ← pyGetE avatar "nome_ficticio" .none_
  return .dict [("status", .str "success"),
    ("analise_completa", .str "Palavras-chave estratégicas identificadas"),
    ("fonte_dados", .dict [("web_sources_analyzed", .num n),
                           ("avatar_included", .bool nome.truthy)])]

def execute_real_keywords_analysis (ai ce : SafeCallEnv) (web avatar : PyVal) : PyVal :=
  match keywordsBody ai ce web avatar with
  | .ok v => v
  | .error m => .dict [("status", .str "error"), ("error", .str m)]

def salesFunnelBody (ai : SafeCallEnv) (drivers avatar : PyVal) : Except String PyVal := do
  if ai.registered then
    let r := safeCallV ai "ai_manager" funnelPatterns
    if r.truthy then
      let st ← pyGetE r "status" .none_
      if st.isStr "success" then
        return r
  let dl ← pyGetE drivers "drivers_customizados" (.list [])
  let n ← pyLenE dl
  let nome ← pyGetE avatar "nome_ficticio" .none_
  return .dict [("status", .str "success"),
    ("funil_otimizado", .str "Funil otimizado com base nos dados coletados"),
    ("dados_base", .dict [("drivers_applied", .num n),
                          ("avatar_based", .bool nome.truthy)])]

def execute_real_sales_funnel (ai : SafeCallEnv) (drivers avatar : PyVal) : PyVal :=
  match salesFunnelBody ai drivers avatar with
  | .ok v => v
  | .error m => .dict [("status", .str "error"), ("error", .str m)]

/-!
## Final consolidation (SuperOrchestrator._generate_final_report_async)
-/

/-- `v[:n]` slicing, raising TypeError on non-sequences. -/
def pySliceE (v : PyVal) (n : Nat) : Except String PyVal :=
  match v with
  | .str s => .ok (.str (s.take n))
  | .list l => .ok (.list (l.take n))
  | _ => .error "TypeError: object is not subscriptable"

/-- `SuperOrchestrator._gerar_relatorio_pesquisa_web`; iterating
`processed_results[:10]` and calling `.get` on its items can raise, which
propagates to the caller's `try` (no local handler in the source). -/
def gerar_relatorio_pesquisa_web (web : PyVal) : Except String PyVal := do
  if !web.isDict then
    return .dict [("status", .str "error"), ("message", .str "Dados inválidos")]
  let pr := web.getD "processed_results" (.list [])
  let total ← pyLenE pr
  let firstTen ← pySliceE pr 10
  let items ← pyIterE firstTen
  let fontes ← items.mapM (fun result => do
    let t ← pyGetE result "title" (.str "Sem título")
    let t100 ← pySliceE t 100
    let u ← pyGetE result "url" (.str "")
    let rel ← pyGetE result "relevance_score" (.num 0)
    pure (PyVal.dict [("titulo", t100), ("url", u), ("relevancia", rel)]))
  return .dict [("status", .str "success"), ("total_fontes", .num total),
    ("fontes_analisadas", .list fontes),
    ("qualidade_pesquisa", .str (if pr.truthy then "real_data" else "limited_data")),
    ("engines_utilizados", web.getD "engines_used" (.list [])),
    ("tempo_execucao", web.getD "execution_time" (.num 0))]

/-- `SuperOrchestrator._gerar_relatorio_social` (cannot raise: every access
is guarded or defaulted). -/
def gerar_relatorio_social (social : PyVal) : PyVal :=
  if !social.isDict then
    .dict [("status", .str "error"), ("message", .str "Dados sociais inválidos")]
  else
    let pd := social.getD "platforms_data" (.dict [])
    .dict [("status", .str "success"),
      ("total_posts", social.getD "total_posts" (.num 0)),
      ("plataformas_analisadas",
        .list (match pd with
               | .dict es => es.map (fun e => PyVal.str e.1)
               | _ => [])),
      ("sentimento_geral", .str "neutro"),
      ("engajamento_medio", .str "moderado"),
      ("palavras_chave_trending",
        .list [.str "empreendedorismo", .str "inovacao", .str "brasil"])]

/-- `SuperOrchestrator._gerar_relatorio_avatar`. -/
def gerar_relatorio_avatar (avatar : PyVal) : PyVal :=
  if !avatar.isDict then
    .dict [("status", .str "error"), ("message", .str "Dados de avatar inválidos")]
  else
    .dict [("status", .str "success"),
      ("nome_avatar", avatar.getD "nome_ficticio" (.str "Avatar Profissional")),
      ("dores_identificadas", avatar.getD "dores_viscerais_unificadas" (.list [])),
      ("desejos_mapeados", avatar.getD "desejos_secretos_unificados" (.list [])),
      ("objecoes_principais", avatar.getD "objecoes_principais" (.list [])),
      ("canais_preferidos", avatar.getD "canais_comunicacao" (.list [])),
      ("perfil_demografico", avatar.getD "perfil_demografico_completo" (.dict [])),
      ("perfil_psicografico", avatar.getD "perfil_psicografico_profundo" (.dict []))]

/-- `SuperOrchestrator._gerar_relatorio_drivers`; `len(drivers)` raises when
the stored value is not sized.  The float literal 8.5 is rendered as the
string "8.5" in the model; no theorem inspects it. -/
def gerar_relatorio_drivers (dd : PyVal) : Except String PyVal := do
  if !dd.isDict then
    return .dict [("status", .str "error"), ("message", .str "Dados de drivers inválidos")]
  let drivers := dd.getD "drivers_customizados" (.list [])
  let n ← pyLenE drivers
  return .dict [("status", .str "success"), ("total_drivers", .num n),
    ("drivers_gerados", drivers),
    ("categorias_cobertas",
      .list [.str "urgencia", .str "autoridade", .str "escassez", .str "prova_social"]),
    ("intensidade_media", .str "8.5"),
    ("aplicabilidade", .str "alta")]

/-- `SuperOrchestrator._gerar_relatorio_provas`. -/
def gerar_relatorio_provas (pv : PyVal) : Except String PyVal := do
  if !pv.isDict then
    return .dict [("status", .str "error"), ("message", .str "Dados de provas inválidos")]
  let proofs := pv.getD "proofs" (.list [])
  let n ← pyLenE proofs
  return .dict [("status", .str "success"), ("total_provas", .num n),
    ("tipos_prova",
      .list [.str "depoimentos", .str "estatisticas", .str "cases", .str "certificacoes"]),
    ("provas_geradas", proofs),
    ("impacto_persuasivo", .str "alto")]

/-- `SuperOrchestrator._gerar_relatorio_anti_objecao`. -/
def gerar_relatorio_anti_objecao (ao : PyVal) : PyVal :=
  if !ao.isDict then
    .dict [("status", .str "error"), ("message", .str "Dados anti-objeção inválidos")]
  else
    let sistema := ao.getD "sistema_anti_objecao" (.dict [])
    .dict [("status", .str "success"),
      ("objecoes_mapeadas",
        if sistema.isDict then sistema.getD "objecoes_mapeadas" (.list []) else .list []),
      ("respostas_preparadas",
        if sistema.isDict then sistema.getD "respostas_preparadas" (.list []) else .list []),
      ("estrategias_neutralizacao",
        if sistema.isDict then sistema.getD "estrategias" (.list []) else .list []),
      ("taxa_neutralizacao_estimada", .str "85%")]

/-- `SuperOrchestrator._gerar_relatorio_funil`. -/
def gerar_relatorio_funil (fd : PyVal) : PyVal :=
  if !fd.isDict then
    .dict [("status", .str "error"), ("message", .str "Dados de funil inválidos")]
  else
    .dict [("status", .str "success"),
      ("etapas_funil",
        .list [.str "consciencia", .str "interesse", .str "consideracao", .str "acao"]),
      ("otimizacoes_aplicadas",
        .list [.str "personalizacao", .str "segmentacao", .str "automacao"]),
      ("conversao_estimada", .str "15-25%"),
      ("pontos_otimizacao",
        .list [.str "landing_pages", .str "follow_up", .str "nurturing"])]

/-- Environment of `_generate_final_report_async`: the enhanced_report call
site, the `datetime.now().isoformat()` value, and `len(self.services)`.
`_salvar_relatorios_modulos` catches its own exceptions (source lines
1145-1152), so it contributes no failure mode and is modelled as a no-op. -/
structure ReportEnv where
  enhancedReport : SafeCallEnv
  timestamp : String
  servicesCount : Nat

/-- The `try` body of `_generate_final_report_async`: either the enhanced
report generator's result, or the fallback report assembled from the
collected stage data; any exception raised while assembling propagates to
the handler in `generate_final_report`. -/
def finalReportBody (env : ReportEnv) (cad : List (String × PyVal)) (sid : String) :
    Except String PyVal := do
  if env.enhancedReport.registered then
    let r := safeCallV env.enhancedReport "enhanced_report" reportPatterns
    if r.truthy && r.isDict then
      let st ← pyGetE r "status" .none_
      if !(st.isStr "method_not_found") && !(st.isStr "critical_error") then
        return r
  let cadV := PyVal.dict cad
  let webd := cadV.getD "pesquisa_web_massiva" (.dict [])
  let sociald := cadV.getD "analise_redes_sociais" (.dict [])
  let avatard := cadV.getD "avatar_ultra_detalhado" (.dict [])
  let driversd := cadV.getD "drivers_mentais_customizados" (.dict [])
  let provasd := cadV.getD "provas_visuais_arsenal" (.dict [])
  let antid := cadV.getD "sistema_anti_objecao" (.dict [])
  let funild := cadV.getD "funil_vendas_otimizado" (.dict [])
  let webSources ← if webd.isDict then pyLenE (webd.getD "processed_results" (.list []))
                   else pure 0
  let driversCount ← if driversd.isDict then
                       pyLenE (driversd.getD "drivers_customizados" (.list []))
                     else pure 0
  let provasCount ← if provasd.isDict then pyLenE (provasd.getD "proofs" (.list []))
                    else pure 0
  let relWeb ← gerar_relatorio_pesquisa_web webd
  let relDrivers ← gerar_relatorio_drivers driversd
  let relProvas ← gerar_relatorio_provas provasd
  return .dict [("status", .str "success"), ("session_id", .str sid),
    ("timestamp", .str env.timestamp),
    ("resumo_executivo", .str "Análise completa finalizada com todos os componentes"),
    ("componentes_analisados", .list (cad.map (fun e => PyVal.str e.1))),
    ("dados_coletados", .dict [
      ("web_sources", .num webSources),
      ("social_posts", if sociald.isDict then sociald.getD "total_posts" (.num 0)
                       else .num 0),
      ("avatar_criado",
        .bool (if avatard.isDict then (avatard.get "nome_ficticio").truthy else false)),
      ("drivers_gerados", .num driversCount),
      ("provas_visuais", .num provasCount),
      ("sistema_anti_objecao",
        .bool (if antid.isDict then (antid.get "sistema_anti_objecao").truthy else false)),
      ("funil_otimizado",
        .bool (if funild.isDict then (funild.get "funil_otimizado").truthy else false))]),
    ("relatorios_modulos", .dict [
      ("pesquisa_web", relWeb),
      ("analise_social", gerar_relatorio_social sociald),
      ("avatar", gerar_relatorio_avatar avatard),
      ("drivers_mentais", relDrivers),
      ("provas_visuais", relProvas),
      ("anti_objecao", gerar_relatorio_anti_objecao antid),
      ("funil_vendas", gerar_relatorio_funil funild)]),
    ("service_status", .dict [
      ("services_available", .num env.servicesCount),
      ("services_used",
        .num (cad.countP (fun e => e.2.isDict && (e.2.get "status").isStr "success"))),
      ("fallbacks_used",
        .num (cad.countP (fun e => e.2.isDict && (e.2.get "status").isStr "fallback")))]),
    ("report_generator", .str "enhanced_fallback_v5_fixed")]

/-- `SuperOrchestrator._generate_final_report_async`: the body above under
the method's own `try/except`, so a raising consolidation is converted to
an error *report* and never escapes this method. -/
def generate_final_report (env : ReportEnv) (cad : List (String × PyVal))
    (sid : String) : PyVal :=
  match finalReportBody env cad sid with
  | .ok v => v
  | .error m => .dict [("status", .str "error"), ("session_id", .str sid),
                       ("timestamp", .str env.timestamp), ("error", .str m),
                       ("report_generator", .str "error_fallback")]

/-!
## Pipeline executor (SuperOrchestrator.execute_synchronized_analysis /
_execute_async_analysis)
-/

/-- Behaviour of a supplied progress callback at one invocation:
`Except.error m` means the callback raised. -/
abbrev CbBeh := Nat → String → Except String Unit

/-- One `if progress_callback: progress_callback(step, message)` site. -/
def cbCall (cb : Option CbBeh) (i : Nat) (msg : String) : Except String Unit :=
  match cb with
  | none => .ok ()
  | some f => f i msg

def pm1 : String := "🔍 Executando pesquisa web massiva com dados reais..."
def pm2 : String := "📱 Analisando redes sociais com dados reais..."
def pm3 : String := "👤 Criando avatar ultra-detalhado com dados reais..."
def pm4 : String := "🧠 Gerando drivers mentais customizados com dados reais..."
def pm5 : String := "📸 Criando provas visuais com dados reais..."
def pm6 : String := "🛡️ Desenvolvendo sistema anti-objeção com dados reais..."
def pm7 : String := "🎯 Construindo pré-pitch invisível com dados reais..."
def pm8 : String := "🔮 Gerando predições futuras com dados reais..."
def pm9 : String := "⚔️ Analisando concorrência com dados reais..."
def pm10 : String := "💡 Extraindo insights exclusivos com dados reais..."
def pm11 : String := "🎯 Identificando palavras-chave estratégicas com dados reais..."
def pm12 : String := "🎢 Otimizando funil de vendas com dados reais..."
def pm13 : String := "📊 Gerando relatório final completo com dados reais..."

/-- The thirteen progress messages in phase order. -/
def pmList : List String :=
  [pm1, pm2, pm3, pm4, pm5, pm6, pm7, pm8, pm9, pm10, pm11, pm12, pm13]

/-- The progress-call trace after the first `k` callback invocations
completed normally. -/
def progressTrace (k : Nat) : List (Nat × String) :=
  (pmList.take k).enum.map (fun e => (e.1 + 1, e.2))

/-- Environment of one `_execute_async_analysis` run: one `SafeCallEnv`
per service call site (a Python service object may behave differently at
different call sites within one run, e.g. after internal state changes,
so sites are independent), plus the consolidation environment and the
measured execution time. -/
structure OrchEnv where
  web : WebSearchEnv
  social : SocialEnv
  aiAvatar : SafeCallEnv
  mentalDrivers : SafeCallEnv
  visualProofs : SafeCallEnv
  antiObjection : SafeCallEnv
  prePitch : SafeCallEnv
  futurePrediction : SafeCallEnv
  aiCompetition : SafeCallEnv
  contentInsights : SafeCallEnv
  aiKeywords : SafeCallEnv
  contentKeywords : SafeCallEnv
  aiFunnel : SafeCallEnv
  report : ReportEnv
  execTime : Int

/-- Observable outcome of one `_execute_async_analysis` run.
`okRun = false` means an exception escaped the coroutine (in the source
the only uncaught raise sites inside it are the progress-callback calls);
`execStatus` is `self.execution_state[session_id]['status']` afterwards
(set to running at entry, completed only at the end); `analysisData` is
the `complete_analysis_data` dict of stage results (built only when the
run reaches consolidation); `stagesRun` counts executed stage computations
including consolidation. -/
structure AsyncRun where
  okRun : Bool
  errMsg : String
  resultDict : PyVal
  execStatus : String
  progressCalls : List (Nat × String)
  stagesRun : Nat
  analysisData : List (String × PyVal)

/-- Outcome when an exception escapes after `k` completed phases. -/
def mkAsyncErr (e : String) (k : Nat) : AsyncRun :=
  { okRun := false, errMsg := e, resultDict := .none_, execStatus := "running",
    progressCalls := progressTrace k, stagesRun := k, analysisData := [] }

/-- `SuperOrchestrator._execute_async_analysis`: thirteen phases run
strictly in order; each phase first fires the progress callback (an
exception there escapes the coroutine), then runs its stage helper (which
never raises — each catches at its own boundary). -/
def execute_async_analysis (env : OrchEnv) (cb : Option CbBeh) (data : PyVal)
    (sid : String) : AsyncRun :=
  match cbCall cb 1 pm1 with
  | .error e => mkAsyncErr e 0
  | .ok _ =>
  let web := execute_real_web_search env.web data
  match cbCall cb 2 pm2 with
  | .error e => mkAsyncErr e 1
  | .ok _ =>
  let social := execute_real_social_analysis env.social data
  match cbCall cb 3 pm3 with
  | .error e => mkAsyncErr e 2
  | .ok _ =>
  let avatar := execute_real_avatar_analysis env.aiAvatar web social data
  match cbCall cb 4 pm4 with
  | .error e => mkAsyncErr e 3
  | .ok _ =>
  let drivers := execute_real_mental_drivers env.mentalDrivers avatar data sid
  match cbCall cb 5 pm5 with
  | .error e => mkAsyncErr e 4
  | .ok _ =>
  let visual := execute_real_visual_proofs env.visualProofs drivers data
  match cbCall cb 6 pm6 with
  | .error e => mkAsyncErr e 5
  | .ok _ =>
  let anti := execute_real_anti_objection env.antiObjection drivers avatar data
  match cbCall cb 7 pm7 with
  | .error e => mkAsyncErr e 6
  | .ok _ =>
  let prepitch := execute_real_pre_pitch env.prePitch drivers anti data
  match cbCall cb 8 pm8 with
  | .error e => mkAsyncErr e 7
  | .ok _ =>
  let predictions := execute_real_future_predictions env.futurePrediction
  match cbCall cb 9 pm9 with
  | .error e => mkAsyncErr e 8
  | .ok _ =>
  let competition := execute_real_competition_analysis env.aiCompetition web data
  match cbCall cb 10 pm10 with
  | .error e => mkAsyncErr e 9
  | .ok _ =>
  let insights := execute_real_insights_extraction env.contentInsights web social
  match cbCall cb 11 pm11 with
  | .error e => mkAsyncErr e 10
  | .ok _ =>
  let keywords := execute_real_keywords_analysis env.aiKeywords env.contentKeywords web avatar
  match cbCall cb 12 pm12 with
  | .error e => mkAsyncErr e 11
  | .ok _ =>
  let funnel := execute_real_sales_funnel env.aiFunnel drivers avatar
  match cbCall cb 13 pm13 with
  | .error e => mkAsyncErr e 12
  | .ok _ =>
  let cad : List (String × PyVal) :=
    [("session_id", .str sid),
     ("projeto_dados", data),
     ("pesquisa_web_massiva", web),
     ("avatar_ultra_detalhado", avatar),
     ("drivers_mentais_customizados", drivers),
     ("provas_visuais_arsenal", visual),
     ("sistema_anti_objecao", anti),
     ("pre_pitch_invisivel", prepitch),
     ("predicoes_futuro_detalhadas", predictions),
     ("analise_concorrencia", competition),
     ("insights_exclusivos", insights),
     ("palavras_chave_estrategicas", keywords),
     ("funil_vendas_otimizado", funnel),
     ("analise_redes_sociais", social)]
  let finalReport := generate_final_report env.report cad sid
  { okRun := true, errMsg := "", execStatus := "completed",
    progressCalls := progressTrace 13, stagesRun := 13, analysisData := cad,
    resultDict := .dict [
      ("success", .bool true),
      ("session_id", .str sid),
      ("execution_time", .num env.execTime),
      ("total_components_executed", .num 12),
      ("report", finalReport),
      ("data_validation", .dict [
        ("all_data_real", .bool true),
        ("zero_simulated_data", .bool true),
        ("zero_fallbacks_used", .bool true),
        ("components_with_real_data", .num 12)]),
      ("sync_status", .str "PERFECT_SYNC_REAL_DATA_ONLY")] }

/-- Outcome of `execute_synchronized_analysis`: the returned envelope plus
the underlying async run when one was started. -/
structure SyncRun where
  result : PyVal
  asyncRun : Option AsyncRun

/-- `SuperOrchestrator.execute_synchronized_analysis`: empty input is
rejected up front; otherwise the async analysis runs and any exception
escaping it is caught here and converted to the emergency failure
envelope (which carries no stage results). -/
def execute_synchronized_analysis (env : OrchEnv) (cb : Option CbBeh)
    (data : PyVal) (sid : String) : SyncRun :=
  if !data.truthy then
    { result := .dict [("success", .bool false), ("session_id", .str sid),
        ("error", .str "Dados de entrada obrigatórios não fornecidos"),
        ("emergency_mode", .bool true)],
      asyncRun := none }
  else
    let r := execute_async_analysis env cb data sid
    if r.okRun then
      { result := r.resultDict, asyncRun := some r }
    else
      { result := .dict [("success", .bool false), ("session_id", .str sid),
          ("error", .str r.errMsg), ("emergency_mode", .bool true)],
        asyncRun := some r }

/-!
## Result cache and search providers (src/services/production_search_manager.py)
-/

/-- One entry of `ProductionSearchManager.cache`. -/
structure CacheEntry where
  results : List PyVal
  timestamp : Int
  provider : String

/-- The cache dict, keyed by `_generate_cache_key` output. -/
abbrev SearchCache := String → Option CacheEntry

/-- `ProductionSearchManager._generate_cache_key`: the md5 hexdigest of
`f"{query}_{max_results}"`, modelled as the (injective) encoded key string
itself — hashing is irrelevant to the cache contract. -/
def generate_cache_key (query : String) (maxResults : Nat) : String :=
  query ++ "_" ++ toString maxResults

/-- `cache_ttl = 3600` (1 hour). -/
def cacheTTL : Int := 3600

/-- `ProductionSearchManager._get_from_cache`: a hit while fresh, a miss
with lazy deletion once `now - timestamp` reaches the TTL, a plain miss
for an absent key.  Returns the result and the possibly-updated cache. -/
def get_from_cache (c : SearchCache) (key : String) (now : Int) :
    Option (List PyVal) × SearchCache :=
  match c key with
  | none => (none, c)
  | some e =>
      if now - e.timestamp < cacheTTL then (some e.results, c)
      else (none, fun k2 => if k2 = key then none else c k2)

/-- `ProductionSearchManager._save_to_cache`. -/
def save_to_cache (c : SearchCache) (key : String) (results : List PyVal)
    (provider : String) (now : Int) : SearchCache :=
  fun k2 => if k2 = key then some ⟨results, now, provider⟩ else c k2

/-- One entry of `ProductionSearchManager.providers` (API keys and client
objects carry no availability information beyond `enabled` and are omitted). -/
structure SearchProvider where
  enabled : Bool
  priority : Nat
  error_count : Nat
  max_errors : Nat
  deriving Repr, DecidableEq

/-- The search provider table, in dict insertion order. -/
abbrev SearchRegistry := List (String × SearchProvider)

/-- First-match association lookup (`self.providers.get(name, {})`). -/
def lookupSearchProvider (ps : SearchRegistry) (name : String) : Option SearchProvider :=
  match ps with
  | [] => none
  | (k, p) :: rest => if k = name then some p else lookupSearchProvider rest name

/-- `ProductionSearchManager._is_provider_available`:
`enabled and error_count < max_errors` (an unknown name is unavailable). -/
def is_provider_available (ps : SearchRegistry) (name : String) : Bool :=
  match lookupSearchProvider ps name with
  | some p => p.enabled && decide (p.error_count < p.max_errors)
  | none => false

/-- `ProductionSearchManager._record_provider_error`: increment only; the
threshold disables the provider implicitly through `_is_provider_available`. -/
def record_provider_error (name : String) (ps : SearchRegistry) : SearchRegistry :=
  ps.map (fun e => if e.1 = name
                   then (e.1, { e.2 with error_count := e.2.error_count + 1 })
                   else e)

/-- `ProductionSearchManager.reset_provider_errors`: zero one provider's
counter, or every provider's when no name is given. -/
def reset_provider_errors (name : Option String) (ps : SearchRegistry) : SearchRegistry :=
  match name with
  | some n => ps.map (fun e => if e.1 = n then (e.1, { e.2 with error_count := 0 }) else e)
  | none => ps.map (fun e => (e.1, { e.2 with error_count := 0 }))

/-- Sort key `(priority, error_count)` of `_get_provider_order`. -/
def searchKey (p : SearchProvider) : Nat × Nat := (p.priority, p.error_count)

/-- Stable insertion (equal keys keep list order), modelling Python's
stable `list.sort`. -/
def insertSearchByKey (x : String × SearchProvider) :
    List (String × SearchProvider) → List (String × SearchProvider)
  | [] => [x]
  | y :: ys => if keyLt (searchKey x.2) (searchKey y.2) then x :: y :: ys
               else y :: insertSearchByKey x ys

/-- Stable sort by `(priority, error_count)`. -/
def stableSortSearch (l : List (String × SearchProvider)) :
    List (String × SearchProvider) :=
  l.foldl (fun acc x => insertSearchByKey x acc) []

/-- `ProductionSearchManager._get_provider_order`. -/
def get_provider_order (ps : SearchRegistry) : List String :=
  (stableSortSearch (ps.filter (fun e => is_provider_available ps e.1))).map (·.1)

/-- Scheme-and-netloc validity of `urlparse` as used by
`_validate_results`: a nonempty scheme before `://` and a nonempty host
segment after it. -/
def urlSchemeNetlocOk (u : String) : Bool :=
  match u.splitOn "://" with
  | [] => false
  | [_] => false
  | s :: rest =>
      let after := String.intercalate "://" rest
      let netloc := (after.splitOn "/").headD ""
      !s.isEmpty && !netloc.isEmpty

/-- Presence test `f in result` for a dict-modelled value. -/
def pyHasKey (v : PyVal) (k : String) : Bool :=
  match v with
  | .dict es => (PyVal.assocGet es k).isSome
  | _ => false

/-- The cleaned result dict built by `_validate_results` for an accepted
item (base fields plus the optional extra fields, in source order). -/
def cleanedResult (result : PyVal) : PyVal :=
  let base := [("title", PyVal.str ((result.getD "title" (.str "")).toStr.trim.take 500)),
               ("url", PyVal.str ((result.getD "url" (.str "")).toStr.trim)),
               ("snippet", PyVal.str ((result.getD "snippet" (.str "")).toStr.trim.take 1000)),
               ("source", PyVal.str ((result.getD "source" (.str "unknown")).toStr))]
  let extras := (["score", "published_date", "exa_id", "text"].filter
      (fun f => pyHasKey result f)).map (fun f => (f, result.get f))
  .dict (base ++ extras)

/-- Per-item acceptance of `_validate_results`: non-dicts are skipped,
missing/falsy title or url skips, and a url that is not a string (urlparse
raises, caught by the bare `except: continue`) or lacks scheme/netloc skips. -/
def validateResultItem (result : PyVal) : Option PyVal :=
  match result with
  | .dict _ =>
      if !(result.get "title").truthy || !(result.get "url").truthy then none
      else
        match result.get "url" with
        | .str u => if urlSchemeNetlocOk u then some (cleanedResult result) else none
        | _ => none
  | _ => none

/-- `ProductionSearchManager._validate_results` (its argument is always a
list here, so the `isinstance(results, list)` guard is vacuous). -/
def validate_results (results : List PyVal) : List PyVal :=
  results.filterMap validateResultItem

/-- Mutable state of the search manager: provider health and the cache. -/
structure SearchState where
  providers : SearchRegistry
  cache : SearchCache

/-- Behaviour of the concrete `_search_exa/_search_google/_search_serper/
_search_bing` HTTP calls for this run: `none` = the call raises,
`some rs` = it returns the result list `rs`. -/
abbrev SearchBeh := String → Option (List PyVal)

/-- The four names dispatched by the if/elif chain of `search_with_fallback`
(any other name falls into `else: continue`). -/
def knownSearchProviders : List String := ["exa", "google", "serper", "bing"]

/-- The provider loop of `search_with_fallback`.  Returns the validated
results (empty when every provider was exhausted), the updated state, and
the trace of providers actually invoked, in invocation order. -/
def searchLoop (beh : SearchBeh) (now : Int) (key : String) :
    List String → SearchState → List String → List PyVal × SearchState × List String
  | [], st, trace => ([], st, trace)
  | name :: rest, st, trace =>
      if !(is_provider_available st.providers name) then
        searchLoop beh now key rest st trace
      else if !(knownSearchProviders.contains name) then
        searchLoop beh now key rest st trace
      else
        match beh name with
        | none =>
            let st2 := { st with providers := record_provider_error name st.providers }
            searchLoop beh now key rest st2 (trace ++ [name])
        | some results =>
            if results.isEmpty then
              searchLoop beh now key rest st (trace ++ [name])
            else
              let validated := validate_results results
              if validated.isEmpty then
                searchLoop beh now key rest st (trace ++ [name])
              else
                (validated,
                 { st with cache := save_to_cache st.cache key validated name now },
                 trace ++ [name])

/-- `ProductionSearchManager.search_with_fallback`: empty query short
circuit, cache lookup (truthy hit returns immediately), then the provider
loop with lazy error recording and cache fill on success. -/
def search_with_fallback (st : SearchState) (beh : SearchBeh) (now : Int)
    (query : String) (maxResults : Nat) : List PyVal × SearchState × List String :=
  if query.trim.isEmpty then ([], st, [])
  else
    let q := query.trim
    let key := generate_cache_key q maxResults
    let (cached, cache2) := get_from_cache st.cache key now
    let st2 := { st with cache := cache2 }
    match cached with
    | some results =>
        if !results.isEmpty then (results, st2, [])
        else searchLoop beh now key (get_provider_order st2.providers) st2 []
    | none => searchLoop beh now key (get_provider_order st2.providers) st2 []

/-- Monadic list filter used for the raising list comprehensions in
`comprehensive_search`. -/
def filterME (p : PyVal → Except String Bool) :
    List PyVal → Except String (List PyVal)
  | [] => .ok []
  | x :: xs => do
      let b ← p x
      let rest ← filterME p xs
      pure (if b then x :: rest else rest)

/-- `len(r.get('snippet', '')) > 50` (the Exa filter). -/
def snippetLongEnough (r : PyVal) : Except String Bool := do
  let sn ← pyGetE r "snippet" (.str "")
  let n ← pyLenE sn
  pure (decide (n > 50))

/-- `r.get('url')` truthiness (the Google/Serper filter). -/
def urlPresent (r : PyVal) : Except String Bool := do
  let u ← pyGetE r "url" .none_
  pure u.truthy

/-- `ProductionSearchManager._remove_duplicates_advanced`: URL-based
deduplication, with normalization stripping query and fragment. -/
def removeDupsGo : List PyVal → List String → Except String (List PyVal)
  | [], _ => .ok []
  | r :: rest, seen => do
      let uv ← pyGetE r "url" (.str "")
      let ul ← pyLowerE uv
      let url := ul.trim
      if !url.isEmpty && !(seen.contains url) then
        let afterQ := (url.splitOn "?").headD url
        let normalized := (afterQ.splitOn "#").headD afterQ
        if !(seen.contains normalized) then do
          let rest2 ← removeDupsGo rest (seen ++ [url, normalized])
          pure (r :: rest2)
        else
          removeDupsGo rest seen
      else
        removeDupsGo rest seen

def remove_duplicates_advanced (rs : List PyVal) : Except String (List PyVal) :=
  removeDupsGo rs []

/-- `set(query.lower().split())`: whitespace split, empties dropped,
duplicates removed. -/
def queryTerms (query : String) : List String :=
  ((query.toLower.split (fun c => c.isWhitespace)).filter
    (fun t => !t.isEmpty)).dedup

/-- Substring test `term in text` (terms are never empty). -/
def substrIn (needle hay : String) : Bool :=
  decide ((hay.splitOn needle).length > 1)

/-- `sum(1 for term in query_terms if term in text)`. -/
def countTermMatches (terms : List String) (hay : String) : Nat :=
  (terms.filter (fun t => substrIn t hay)).length

/-- `ProductionSearchManager._enrich_results_with_scores` on one item. -/
def enrichOne (terms : List String) (r : PyVal) : Except String PyVal := do
  let tv ← pyGetE r "title" (.str "")
  let title ← pyLowerE tv
  let titleMatches := countTermMatches terms title
  let txtv ← pyGetE r "text" (.str "")
  let snv ← pyGetE r "snippet" (.str "")
  let text ← pyLowerE (txtv.pyOr snv)
  let textMatches := countTermMatches terms text
  let source ← pyGetE r "source" (.str "")
  let txtv2 ← pyGetE r "text" (.str "")
  let snv2 ← pyGetE r "snippet" (.str "")
  let contentLength ← pyLenE (txtv2.pyOr snv2)
  let score : Int := titleMatches * 3 + textMatches
      + (if source.isStr "exa" then 2 else 0)
      + (if contentLength > 200 then 1 else 0)
  let r2 := pyDictSet r "comprehensive_score" (.num score)
  pure (pyDictSet r2 "content_quality" (.num (min 100 (contentLength / 10))))

def enrich_results_with_scores (rs : List PyVal) (query : String) :
    Except String (List PyVal) :=
  rs.mapM (enrichOne (queryTerms query))

/-- The four-component sort key of `_sort_by_comprehensive_score`.  The
score fields are read numerically with default 0: they are always set by
`_enrich_results_with_scores`, and a non-numeric optional `score` would
make Python's tuple comparison raise only on a tie, a corner the model
flattens to 0. -/
def sortKey4 (r : PyVal) : Except String (Int × Int × Int × Int) := do
  let txtv ← pyGetE r "text" (.str "")
  let snv ← pyGetE r "snippet" (.str "")
  let n ← pyLenE (txtv.pyOr snv)
  pure (pyNumD (r.getD "comprehensive_score" (.num 0)) 0,
        pyNumD (r.getD "score" (.num 0)) 0,
        pyNumD (r.getD "content_quality" (.num 0)) 0, (n : Int))

/-- Strict descending comparison of sort keys. -/
def key4Gt (a b : Int × Int × Int × Int) : Bool :=
  decide (a.1 > b.1) || (decide (a.1 = b.1) && (decide (a.2.1 > b.2.1)
    || (decide (a.2.1 = b.2.1) && (decide (a.2.2.1 > b.2.2.1)
    || (decide (a.2.2.1 = b.2.2.1) && decide (a.2.2.2 > b.2.2.2))))))

/-- Stable descending insertion (equal keys keep list order), modelling
Python's stable `sorted(..., reverse=True)`. -/
def insertDesc (x : PyVal × (Int × Int × Int × Int)) :
    List (PyVal × (Int × Int × Int × Int)) → List (PyVal × (Int × Int × Int × Int))
  | [] => [x]
  | y :: ys => if key4Gt x.2 y.2 then x :: y :: ys else y :: insertDesc x ys

/-- `ProductionSearchManager._sort_by_comprehensive_score`. -/
def sort_by_comprehensive_score (rs : List PyVal) : Except String (List PyVal) := do
  let keyed ← rs.mapM (fun r => do
    let k ← sortKey4 r
    pure (r, k))
  pure ((keyed.foldl (fun acc x => insertDesc x acc) []).map (·.1))

/-- Accumulator of the four provider blocks of `comprehensive_search`. -/
structure CompStep where
  all : List PyVal
  sources : List String
  errors : List String
  trace : List String

/-- One provider block of `comprehensive_search` (the source repeats this
shape for exa, google, serper and bing): when the guard holds, call the
provider; a raise or a raising filter comprehension is caught into the
`errors` list (the exception text is abstracted); valid results are
appended; an empty result list adds `noResultErr` when the block has one
(the bing block has none).  Provider errors are never recorded here. -/
def compProviderBlock (s : CompStep) (guard : Bool) (name : String) (label : String)
    (behOut : Option (List PyVal)) (flt : Option (PyVal → Except String Bool))
    (noResultErr : Option String) : CompStep :=
  if guard then
    match behOut with
    | none => { s with errors := s.errors ++ [label ++ " falhou: exception"],
                       trace := s.trace ++ [name] }
    | some rs =>
        if !rs.isEmpty then
          match (match flt with
                 | none => (Except.ok rs : Except String (List PyVal))
                 | some f => filterME f rs) with
          | .error m => { s with errors := s.errors ++ [label ++ " falhou: " ++ m.take 100],
                                 trace := s.trace ++ [name] }
          | .ok valid =>
              { s with all := s.all ++ valid,
                       sources := s.sources ++ [name ++ "(" ++ toString valid.length ++ ")"],
                       trace := s.trace ++ [name] }
        else
          match noResultErr with
          | some msg => { s with errors := s.errors ++ [msg], trace := s.trace ++ [name] }
          | none => { s with trace := s.trace ++ [name] }
  else s

/-- The four chained provider blocks of `comprehensive_search`: exa
unconditionally (when available), google when fewer than half the wanted
results were collected, serper when fewer than a third, bing only when
nothing at all was collected. -/
def compSteps (st : SearchState) (beh : SearchBeh) (numResults : Nat) : CompStep :=
  let s0 : CompStep := ⟨[], [], [], []⟩
  let s1 := compProviderBlock s0 (is_provider_available st.providers "exa")
      "exa" "Exa" (beh "exa") (some snippetLongEnough) (some "Exa: Sem resultados")
  let s2 := compProviderBlock s1
      (decide (s1.all.length < numResults / 2) && is_provider_available st.providers "google")
      "google" "Google" (beh "google") (some urlPresent) (some "Google: Sem resultados")
  let s3 := compProviderBlock s2
      (decide (s2.all.length < numResults / 3) && is_provider_available st.providers "serper")
      "serper" "Serper" (beh "serper") (some urlPresent) (some "Serper: Sem resultados")
  compProviderBlock s3
      (s3.all.isEmpty && is_provider_available st.providers "bing")
      "bing" "Bing" (beh "bing") none none

/-- `ProductionSearchManager.comprehensive_search`.  Each provider block
re-checks `_is_provider_available`; only the final processing can raise to
the outer handler, which returns the critical-error envelope.  The state
is read, never written.  Returns the result dict and the trace of
providers invoked. -/
def comprehensive_search (st : SearchState) (beh : SearchBeh) (query : String)
    (numResults : Nat) (nowIso : String) : PyVal × List String :=
  let s4 := compSteps st beh numResults
  if !s4.all.isEmpty then
    let processed : Except String (List PyVal) := do
      let unique ← remove_duplicates_advanced s4.all
      let enriched ← enrich_results_with_scores unique query
      let sorted ← sort_by_comprehensive_score enriched
      pure (sorted.take numResults)
    match processed with
    | .ok finalResults =>
        (.dict [("success", .bool true), ("query", .str query),
                ("total_results", .num finalResults.length),
                ("results", .list finalResults),
                ("sources_used", .list (s4.sources.map PyVal.str)),
                ("errors", if s4.errors.isEmpty then .none_
                           else .list (s4.errors.map PyVal.str)),
                ("search_strategy", .str "comprehensive_multi_source"),
                ("timestamp", .str nowIso)],
         s4.trace)
    | .error m =>
        (.dict [("success", .bool false), ("error", .str m), ("query", .str query),
                ("results", .list []), ("sources_used", .list []),
                ("errors", .list [.str ("Erro crítico: " ++ m)])],
         s4.trace)
  else
    (.dict [("success", .bool false), ("query", .str query),
            ("total_results", .num 0), ("results", .list []),
            ("sources_used", .list (s4.sources.map PyVal.str)),
            ("errors", .list (s4.errors.map PyVal.str)),
            ("error", .str "Nenhuma fonte retornou resultados válidos")],
     s4.trace)

/-!
## HTTP start route (src/routes/analysis.py, analyze)

Session bookkeeping (`auto_save_manager`, `active_sessions`) and the
`salvar_etapa` persistence calls are external I/O plumbing and are
modelled as non-raising no-ops; the session id produced by
`iniciar_sessao` is a parameter.
-/

/-- Observable outcome of one `analyze` request: HTTP status, JSON body,
and whether `execute_synchronized_analysis` was invoked. -/
structure AnalyzeOutcome where
  httpStatus : Nat
  body : PyVal
  orchestratorCalled : Bool

/-- The catch-all 500 envelope of the route handler (lines 147-152). -/
def routeErrorDict (sid : String) (m : String) : PyVal :=
  .dict [("success", .bool false), ("session_id", .str sid), ("error", .str m),
         ("message", .str "Erro na análise. Dados intermediários foram salvos.")]

/-- The `analyze` route: reject missing JSON, reject missing/empty
`segmento`/`produto` with a 400 before the orchestrator runs, otherwise
call the orchestrator (abstracted as `orch`) and translate its envelope
into a 200 or 500 response. -/
def analyze (data : PyVal) (sid : String) (orch : PyVal → String → PyVal) :
    AnalyzeOutcome :=
  if !data.truthy then
    ⟨400, .dict [("error", .str "Dados não fornecidos")], false⟩
  else
    match data with
    | .dict _ =>
        let segmento := data.get "segmento"
        let produto := data.get "produto"
        let publico := data.getD "publico_alvo" (.str "")
        let objetivos := data.getD "objetivos_estrategicos" (.str "")
        let contexto := data.getD "contexto_adicional" (.str "")
        let query := data.getD "query"
          (.str ("mercado de " ++ (produto.pyOr segmento).toStr ++ " no brasil desde 2022"))
        let analysisData := PyVal.dict [("segmento", segmento), ("produto", produto),
          ("publico", publico), ("objetivos", objetivos), ("contexto", contexto),
          ("query", query), ("session_id", .str sid),
          ("validation_mode", .str "REAL_DATA_ONLY")]
        if !segmento.truthy || !produto.truthy then
          ⟨400, .dict [("success", .bool false),
            ("error", .str "FALHA CRÍTICA: Segmento e Produto são obrigatórios para análise com dados reais"),
            ("session_id", .str sid)], false⟩
        else
          let resultado := orch analysisData sid
          match resultado with
          | .dict _ =>
              if !(resultado.getD "success" (.bool false)).truthy then
                ⟨500, .dict [("success", .bool false),
                  ("error", .str ("Falha na análise: "
                     ++ (resultado.getD "error" (.str "Erro desconhecido")).toStr)),
                  ("session_id", .str sid), ("partial_data", resultado)], true⟩
              else
                match resultado.getD "metadata" (.dict []) with
                | .dict mes =>
                    ⟨200, .dict [("success", .bool true), ("session_id", .str sid),
                      ("message", .str "Análise COMPLETA concluída com sucesso!"),
                      ("processing_time",
                        (PyVal.assocGet mes "processing_time_formatted").getD (.str "N/A")),
                      ("data", resultado)], true⟩
                | _ => ⟨500, routeErrorDict sid "AttributeError: metadata.get", true⟩
          | _ => ⟨500, routeErrorDict sid "AttributeError: resultado.get", true⟩
    | _ =>
        ⟨500, routeErrorDict sid "AttributeError: data.get", false⟩

/-!
## Concrete states and environments used by witnesses and counterexamples
-/

/-- Did an `Except` computation succeed? -/
def exceptIsOk : Except String PyVal → Bool
  | .ok _ => true
  | .error _ => false

/-- An unregistered service call site. -/
def emptySafeCall : SafeCallEnv := ⟨false, []⟩

/-- A consolidation environment with no enhanced report generator. -/
def minimalReportEnv : ReportEnv := ⟨emptySafeCall, "2024-01-01T00:00:00", 0⟩

/-- An orchestrator with no service registered at any call site (every
service import in super_orchestrator.py failed or none configured). -/
def minimalOrchEnv : OrchEnv :=
  { web := ⟨emptySafeCall, false, false, none⟩,
    social := ⟨emptySafeCall, false, none⟩,
    aiAvatar := emptySafeCall, mentalDrivers := emptySafeCall,
    visualProofs := emptySafeCall, antiObjection := emptySafeCall,
    prePitch := emptySafeCall, futurePrediction := emptySafeCall,
    aiCompetition := emptySafeCall, contentInsights := emptySafeCall,
    aiKeywords := emptySafeCall, contentKeywords := emptySafeCall,
    aiFunnel := emptySafeCall, report := minimalReportEnv, execTime := 1 }

/-- Run where the mental-drivers service is registered but its only
method raises on every call: every provider of that stage fails. -/
def c2Env : OrchEnv :=
  { minimalOrchEnv with
    mentalDrivers := ⟨true, [("create_complete_mental_drivers_system", none)]⟩ }

def c2Data : PyVal :=
  .dict [("segmento", .str "fitness"), ("produto", .str "coaching app")]

/-- A websailor result whose `processed_results` contains a bare string,
which makes `_gerar_relatorio_pesquisa_web` raise during consolidation. -/
def c3WebResult : PyVal :=
  .dict [("status", .str "success"), ("processed_results", .list [.str "x"])]

def c3Env : OrchEnv :=
  { minimalOrchEnv with
    web := ⟨⟨true, [("navigate_and_research_deep", some c3WebResult)]⟩, false, false, none⟩ }

def c3Data : PyVal :=
  .dict [("segmento", .str "fitness"), ("produto", .str "app")]

/-- A progress callback that raises at every invocation. -/
def c4Cb : CbBeh := fun _ _ => .error "callback boom"

def c4Data : PyVal := .dict [("segmento", .str "s"), ("produto", .str "p")]

/-- A healthy provider one failure away from its threshold, with a last
success recorded at t = 400. -/
def c6Provider : AIProvider :=
  { available := true, priority := 1, error_count := 1, max_errors := 2,
    last_success := some 400, consecutive_failures := 1, enabled := true }

/-- A provider already disabled by the circuit breaker, last success at
t = 400. -/
def c6Disabled : AIProvider :=
  { available := false, priority := 1, error_count := 2, max_errors := 2,
    last_success := some 400, consecutive_failures := 2, enabled := true }

/-- A fresh healthy provider (gemini configuration with a live client). -/
def c5Provider : AIProvider :=
  { available := true, priority := 1, error_count := 0, max_errors := 2,
    last_success := none, consecutive_failures := 0, enabled := true }

/-- Search manager state whose exa provider has exhausted its error
budget while bing is healthy. -/
def c10State : SearchState :=
  { providers := [("exa", { enabled := true, priority := 1, error_count := 3, max_errors := 3 }),
                  ("google", { enabled := false, priority := 2, error_count := 0, max_errors := 3 }),
                  ("serper", { enabled := false, priority := 3, error_count := 0, max_errors := 3 }),
                  ("bing", { enabled := true, priority := 4, error_count := 0, max_errors := 5 })],
    cache := fun _ => none }

/-- Behaviour where every provider raises. -/
def c10Beh : SearchBeh := fun _ => none

/-- The empty cache. -/
def emptyCache : SearchCache := fun _ => none

/-- Stage data whose web-research entry makes the fallback consolidation
raise (`processed_results` holds a bare string). -/
def c3WitCad : List (String × PyVal) :=
  [("pesquisa_web_massiva", PyVal.dict [("processed_results", .list [.str "x"])])]

/-- A pattern from which `_safe_call_service_method` cannot obtain a
truthy result: absent from the operation table, or present but raising,
or present but returning a falsy value. -/
def patternFails (table : List (String × Option PyVal)) (p : String) : Prop :=
  match tableLookup table p with
  | some (some v) => v.truthy = false
  | _ => True

/-!
# Theorems

Helper lemmas first, then one theorem per claim (with witnesses and
counterexamples as required).
-/

theorem record_failure_p_cf (p : AIProvider) :
    (record_failure_p p).consecutive_failures = p.consecutive_failures + 1 := by
  simp only [record_failure_p]
  split <;> rfl

theorem record_failure_p_max (p : AIProvider) :
    (record_failure_p p).max_errors = p.max_errors := by
  simp only [record_failure_p]
  split <;> rfl

theorem record_failure_p_iterate_cf (p : AIProvider) (k : Nat) :
    (record_failure_p^[k] p).consecutive_failures = p.consecutive_failures + k := by
  induction k with
  | zero => rfl
  | succ n ih =>
      rw [Function.iterate_succ_apply', record_failure_p_cf, ih]
      omega

theorem record_failure_p_iterate_max (p : AIProvider) (k : Nat) :
    (record_failure_p^[k] p).max_errors = p.max_errors := by
  induction k with
  | zero => rfl
  | succ n ih =>
      rw [Function.iterate_succ_apply', record_failure_p_max, ih]

theorem record_failure_p_avail_of_lt (p : AIProvider)
    (h : p.consecutive_failures + 1 < p.max_errors) :
    (record_failure_p p).available = p.available := by
  simp only [record_failure_p]
  split
  · omega
  · rfl

theorem record_failure_p_unavail (p : AIProvider)
    (h : p.consecutive_failures + 1 ≥ p.max_errors) :
    (record_failure_p p).available = false := by
  simp only [record_failure_p]
  split
  · rfl
  · omega

theorem iterate_record_failure_avail (p : AIProvider) (hav : p.available = true)
    (hcf : p.consecutive_failures = 0) :
    ∀ k, k < p.max_errors → (record_failure_p^[k] p).available = true := by
  intro k
  induction k with
  | zero => intro _; simpa using hav
  | succ n ih =>
      intro hlt
      rw [Function.iterate_succ_apply']
      have h1 : (record_failure_p^[n] p).available = true := ih (by omega)
      have h2 : (record_failure_p^[n] p).consecutive_failures = n := by
        rw [record_failure_p_iterate_cf, hcf]; omega
      have h3 : (record_failure_p^[n] p).max_errors = p.max_errors :=
        record_failure_p_iterate_max p n
      rw [record_failure_p_avail_of_lt _ (by omega), h1]

/-- Claim C5: after exactly maxFailures (`max_errors`) consecutive
`_record_failure` calls a provider becomes unavailable (and not one call
earlier), and a single `_record_success` immediately restores
`available = true`, zeroes `consecutive_failures` and stamps
`last_success` with the current time. -/
theorem c5_circuit_breaker (p : AIProvider) (now : Int)
    (hav : p.available = true) (hcf : p.consecutive_failures = 0)
    (hmax : 1 ≤ p.max_errors) :
    (∀ k, k < p.max_errors → (record_failure_p^[k] p).available = true) ∧
    (record_failure_p^[p.max_errors] p).available = false ∧
    (record_success_p now (record_failure_p^[p.max_errors] p)).available = true ∧
    (record_success_p now (record_failure_p^[p.max_errors] p)).consecutive_failures = 0 ∧
    (record_success_p now (record_failure_p^[p.max_errors] p)).last_success = some now := by
  refine ⟨iterate_record_failure_avail p hav hcf, ?_, rfl, rfl, rfl⟩
  obtain ⟨m, hm⟩ : ∃ m, p.max_errors = m + 1 := ⟨p.max_errors - 1, by omega⟩
  rw [hm, Function.iterate_succ_apply']
  apply record_failure_p_unavail
  rw [record_failure_p_iterate_cf, record_failure_p_iterate_max, hcf]
  omega

/-- Witness for C5 at the gemini configuration (max_errors = 2), recording
a success at time 42 after the threshold is reached. -/
theorem c5_circuit_breaker_witness :
    c5Provider.available = true ∧ c5Provider.consecutive_failures = 0 ∧
    1 ≤ c5Provider.max_errors ∧
    (record_failure_p^[c5Provider.max_errors] c5Provider).available = false ∧
    (record_success_p 42 (record_failure_p^[c5Provider.max_errors] c5Provider)).available = true ∧
    (record_success_p 42 (record_failure_p^[c5Provider.max_errors] c5Provider)).last_success = some 42 :=
  ⟨rfl, rfl, by decide,
   (c5_circuit_breaker c5Provider 42 rfl rfl (by decide)).2.1,
   (c5_circuit_breaker c5Provider 42 rfl rfl (by decide)).2.2.1,
   (c5_circuit_breaker c5Provider 42 rfl rfl (by decide)).2.2.2.2⟩

/-- Claim C6 counterexample: the gemini provider is disabled by a failure
recorded at time 1000 (its last success was at 400), and the very next
`get_best_provider` call at time 1001 already re-probes and returns it —
before 1000 + 300, because the cooldown in the code is measured against
`last_success`, not against the disable time. -/
theorem c6_counterexample :
    ((record_failure "gemini" [("gemini", c6Provider)]).map (fun e => e.2.available)
       = [false]) ∧
    (get_best_provider ⟨true, true, true⟩ 1001
        (record_failure "gemini" [("gemini", c6Provider)])).1 = some "gemini" ∧
    ((get_best_provider ⟨true, true, true⟩ 1001
        (record_failure "gemini" [("gemini", c6Provider)])).2.map
        (fun e => e.2.consecutive_failures) = [0]) ∧
    ((1001 : Int) < 1000 + 300) :=
  ⟨rfl, rfl, rfl, by decide⟩

/-- Claim C6 (amended): re-probe eligibility in `get_best_provider` is a
function of `last_success` alone, not of the disable time: an unavailable
provider is re-probed (counters zeroed, availability restored when the
matching library flag is set) exactly when its `last_success` is truthy
and strictly more than the 300 s cooldown in the past; a provider with no
recorded success is never re-probed, and neither is one whose last
success is within the cooldown, nor an available one. -/
theorem c6_reprobe_amended (flags : LibFlags) (now : Int) (name : String) (p : AIProvider) :
    (p.available = false → lastSuccessTruthy p.last_success = true →
      cooldownElapsed now p.last_success = true →
      reprobeStep flags now (name, p) =
        (name, { p with error_count := 0, consecutive_failures := 0,
                        available := canReenable flags name })) ∧
    (p.last_success = none → reprobeStep flags now (name, p) = (name, p)) ∧
    (∀ t, p.last_success = some t → now - t ≤ 300 →
      reprobeStep flags now (name, p) = (name, p)) ∧
    (p.available = true → reprobeStep flags now (name, p) = (name, p)) := by
  refine ⟨?_, ?_, ?_, ?_⟩
  · intro h1 h2 h3
    simp [reprobeStep, h1, h2, h3]
  · intro h
    simp [reprobeStep, h, lastSuccessTruthy]
  · intro t h1 h2
    have hc : cooldownElapsed now p.last_success = false := by
      rw [h1]
      simp only [cooldownElapsed, decide_eq_false_iff_not]
      omega
    simp [reprobeStep, hc]
  · intro h
    simp [reprobeStep, h]

/-- Witness for the amended C6: the disabled provider with last success at
400 is re-probed at time 1001. -/
theorem c6_reprobe_amended_witness :
    c6Disabled.available = false ∧
    reprobeStep ⟨true, true, true⟩ 1001 ("gemini", c6Disabled) =
      ("gemini",
        { c6Disabled with error_count := 0, consecutive_failures := 0,
                          available := canReenable ⟨true, true, true⟩ "gemini" }) :=
  ⟨rfl, (c6_reprobe_amended ⟨true, true, true⟩ 1001 "gemini" c6Disabled).1
     rfl (by decide) (by decide)⟩

theorem pickFirstMin_eq_none (l : List (String × AIProvider)) :
    pickFirstMin l = none ↔ l = [] := by
  cases l <;> simp [pickFirstMin]

/-- Claim C1 counterexample: the registry built by `AIManager.__init__`
with no API key configured contains four registered providers, yet
`get_best_provider` returns None — the global reset zeroes counters but
never restores `available`, so the group is permanently unusable. -/
theorem c1_counterexample :
    initialAIRegistry.length = 4 ∧
    (get_best_provider ⟨true, true, true⟩ 1000 initialAIRegistry).1 = none :=
  ⟨rfl, rfl⟩

/-- Claim C1 (amended): when re-probing and filtering leave no provider
both available and under its failure threshold, `get_best_provider`
zeroes every provider's error and consecutive-failure counters but leaves
every `available` flag unchanged; it then returns None exactly when no
provider is available after the re-probe — so a group whose providers are
all unavailable (e.g. never initialized) stays unusable despite the reset. -/
theorem c1_global_reset_amended (flags : LibFlags) (now : Int) (providers : AIRegistry)
    (h : ((providers.map (reprobeStep flags now)).filter healthyFilter).isEmpty = true) :
    (∀ e ∈ (get_best_provider flags now providers).2,
        e.2.error_count = 0 ∧ e.2.consecutive_failures = 0) ∧
    ((get_best_provider flags now providers).2
        = (providers.map (reprobeStep flags now)).map
            (fun e => (e.1, { e.2 with error_count := 0, consecutive_failures := 0 }))) ∧
    ((get_best_provider flags now providers).1 = none ↔
        ∀ e ∈ providers.map (reprobeStep flags now), e.2.available = false) := by
  have hsnd : (get_best_provider flags now providers).2
      = (providers.map (reprobeStep flags now)).map
          (fun e => (e.1, { e.2 with error_count := 0, consecutive_failures := 0 })) := by
    simp only [get_best_provider, h, if_true]
  have hfst : (get_best_provider flags now providers).1 =
      (pickFirstMin (((providers.map (reprobeStep flags now)).map
          (fun e => (e.1, { e.2 with error_count := 0, consecutive_failures := 0 }))).filter
          (fun e => e.2.available))).map (·.1) := by
    simp only [get_best_provider, h, if_true]
  refine ⟨?_, hsnd, ?_⟩
  · intro e he
    rw [hsnd] at he
    simp only [List.mem_map] at he
    obtain ⟨a, _, rfl⟩ := he
    exact ⟨rfl, rfl⟩
  · rw [hfst, Option.map_eq_none', pickFirstMin_eq_none, List.filter_eq_nil_iff]
    constructor
    · intro hall e he
      have := hall (e.1, { e.2 with error_count := 0, consecutive_failures := 0 })
        (List.mem_map.mpr ⟨e, he, rfl⟩)
      simpa using this
    · intro hall e he
      simp only [List.mem_map] at he
      obtain ⟨a, ha, rfl⟩ := he
      simpa using hall a (List.mem_map.mpr ha)

/-- Witness for the amended C1 at the uninitialized registry. -/
theorem c1_global_reset_amended_witness :
    (get_best_provider ⟨true, true, true⟩ 1000 initialAIRegistry).1 = none :=
  (c1_global_reset_amended ⟨true, true, true⟩ 1000 initialAIRegistry rfl).2.2.mpr
    (by decide)

theorem tryPatterns_all_fail (svc : String) (table : List (String × Option PyVal))
    (allP : List String) (ps : List String) (acc : List String)
    (h : ∀ p ∈ ps, patternFails table p) :
    (tryPatterns svc table allP ps acc).1
      = methodNotFoundDict svc (tableKeys table) allP := by
  induction ps generalizing acc with
  | nil => rfl
  | cons p rest ih =>
      have hp := h p (List.mem_cons_self p rest)
      have hrest : ∀ q ∈ rest, patternFails table q :=
        fun q hq => h q (List.mem_cons_of_mem p hq)
      unfold patternFails at hp
      cases hl : tableLookup table p with
      | none =>
          rw [hl] at hp
          simp only [tryPatterns, hl]
          exact ih _ hrest
      | some o =>
          cases o with
          | none =>
              simp only [tryPatterns, hl]
              exact ih _ hrest
          | some v =>
              rw [hl] at hp
              simp only [tryPatterns, hl, hp, Bool.false_eq_true, if_false]
              exact ih _ hrest

/-- Claim C7: the router tries patterns in the caller-supplied order; a
pattern absent from the table is skipped without being treated as an
error; a raising or falsy call continues to the next pattern; a truthy
call returns immediately; with patterns [foo, bar] against a table that
contains only bar it calls bar exactly once and never attempts foo; and
when no pattern matches or every matched call fails, the result is the
structured diagnostic naming the tried patterns and the actually
available operation names. -/
theorem c7_router_invoke (svc : String) :
    (∀ (v : PyVal), v.truthy = true →
      safe_call_service_method ⟨true, [("bar", some v)]⟩ svc ["foo", "bar"]
        = (v, ["bar"])) ∧
    (∀ table allP p ps acc, tableLookup table p = none →
      tryPatterns svc table allP (p :: ps) acc = tryPatterns svc table allP ps acc) ∧
    (∀ table allP p ps acc, tableLookup table p = some none →
      tryPatterns svc table allP (p :: ps) acc
        = tryPatterns svc table allP ps (acc ++ [p])) ∧
    (∀ table allP p ps acc v, tableLookup table p = some (some v) → v.truthy = false →
      tryPatterns svc table allP (p :: ps) acc
        = tryPatterns svc table allP ps (acc ++ [p])) ∧
    (∀ table allP p ps acc v, tableLookup table p = some (some v) → v.truthy = true →
      tryPatterns svc table allP (p :: ps) acc = (v, acc ++ [p])) ∧
    (∀ (e : SafeCallEnv) patterns, e.registered = true →
      (∀ p ∈ patterns, patternFails e.table p) →
      (safe_call_service_method e svc patterns).1
        = methodNotFoundDict svc (tableKeys e.table) patterns) := by
  refine ⟨?_, ?_, ?_, ?_, ?_, ?_⟩
  · intro v hv
    simp [safe_call_service_method, tryPatterns, tableLookup, hv]
  · intro table allP p ps acc h
    simp only [tryPatterns, h]
  · intro table allP p ps acc h
    simp only [tryPatterns, h]
  · intro table allP p ps acc v h hv
    simp only [tryPatterns, h, hv, Bool.false_eq_true, if_false]
  · intro table allP p ps acc v h hv
    simp only [tryPatterns, h, hv, if_true]
  · intro e patterns hreg hfail
    unfold safe_call_service_method
    rw [hreg]
    simpa using tryPatterns_all_fail svc e.table patterns patterns [] hfail

/-- Witness for C7: the spec scenario with a table containing only bar. -/
theorem c7_router_invoke_witness :
    safe_call_service_method ⟨true, [("bar", some (.str "ok"))]⟩ "svc" ["foo", "bar"]
      = (.str "ok", ["bar"]) :=
  (c7_router_invoke "svc").1 (.str "ok") rfl

/-- Claim C8: a save followed by a lookup before the TTL has elapsed
returns the saved results and leaves the cache unchanged; a lookup of an
absent key misses without modification; a lookup of an entry whose age
has reached the TTL misses, deletes exactly that entry at that lookup,
and touches no other key — eviction is lazy and neither save nor lookup
ever sweeps other entries. -/
theorem c8_cache_ttl (c : SearchCache) (k : String) (v : List PyVal)
    (prov : String) (t tq : Int) (e : CacheEntry) :
    (tq - t < cacheTTL →
      get_from_cache (save_to_cache c k v prov t) k tq
        = (some v, save_to_cache c k v prov t)) ∧
    (c k = none → get_from_cache c k tq = (none, c)) ∧
    (c k = some e → tq - e.timestamp ≥ cacheTTL →
      (get_from_cache c k tq).1 = none ∧
      (get_from_cache c k tq).2 k = none ∧
      (∀ k2, k2 ≠ k → (get_from_cache c k tq).2 k2 = c k2)) ∧
    (∀ k2, k2 ≠ k → save_to_cache c k v prov t k2 = c k2) := by
  refine ⟨?_, ?_, ?_, ?_⟩
  · intro h
    simp [get_from_cache, save_to_cache, h]
  · intro h
    simp [get_from_cache, h]
  · intro h1 h2
    have hnot : ¬(tq - e.timestamp < cacheTTL) := by omega
    refine ⟨by simp [get_from_cache, h1, hnot], by simp [get_from_cache, h1, hnot], ?_⟩
    intro k2 hk2
    simp [get_from_cache, h1, hnot, hk2]
  · intro k2 hk2
    simp [save_to_cache, hk2]

/-- Witness for C8: save at t = 0, hit at t = 0 on the empty cache. -/
theorem c8_cache_ttl_witness :
    ((0 : Int) - 0 < cacheTTL) ∧
    get_from_cache (save_to_cache emptyCache "q_10" [.str "r"] "exa" 0) "q_10" 0
      = (some [.str "r"], save_to_cache emptyCache "q_10" [.str "r"] "exa" 0) :=
  ⟨by decide,
   (c8_cache_ttl emptyCache "q_10" [.str "r"] "exa" 0 0 ⟨[], 0, ""⟩).1 (by decide)⟩

/-- Claim C9: a JSON body present but missing `segmento` or `produto`
(absent or empty) is rejected with HTTP 400 and success false before the
orchestrator is invoked — no pipeline stage runs and the rejection is
never surfaced as a 500 pipeline failure. -/
theorem c9_reject_invalid (es : List (String × PyVal)) (sid : String)
    (orch : PyVal → String → PyVal)
    (ht : (PyVal.dict es).truthy = true)
    (hmiss : (PyVal.dict es).get "segmento" = .none_ ∨
             (PyVal.dict es).get "segmento" = .str "" ∨
             (PyVal.dict es).get "produto" = .none_ ∨
             (PyVal.dict es).get "produto" = .str "") :
    analyze (.dict es) sid orch =
      ⟨400, .dict [("success", .bool false),
        ("error", .str "FALHA CRÍTICA: Segmento e Produto são obrigatórios para análise com dados reais"),
        ("session_id", .str sid)], false⟩ := by
  have hcond : (!((PyVal.dict es).get "segmento").truthy
      || !((PyVal.dict es).get "produto").truthy) = true := by
    rcases hmiss with h | h | h | h <;> rw [h] <;> simp [PyVal.truthy] <;>
      first
      | exact Or.inl rfl
      | exact Or.inr rfl
  simp only [analyze, ht, Bool.not_true, Bool.false_eq_true, if_false]
  rw [if_pos hcond]

/-- Witness for C9: a request with a segment but no product. -/
theorem c9_reject_invalid_witness :
    analyze (.dict [("segmento", .str "fitness")]) "s9" (fun _ _ => .none_) =
      ⟨400, .dict [("success", .bool false),
        ("error", .str "FALHA CRÍTICA: Segmento e Produto são obrigatórios para análise com dados reais"),
        ("session_id", .str "s9")], false⟩ :=
  c9_reject_invalid [("segmento", .str "fitness")] "s9" (fun _ _ => .none_) rfl
    (.inr (.inr (.inl rfl)))

theorem lookup_record_error_other (ps : SearchRegistry) (name p : String)
    (h : p ≠ name) :
    lookupSearchProvider (record_provider_error name ps) p
      = lookupSearchProvider ps p := by
  induction ps with
  | nil => rfl
  | cons e rest ih =>
      have hmap : record_provider_error name (e :: rest)
          = (if e.1 = name then (e.1, { e.2 with error_count := e.2.error_count + 1 })
             else e) :: record_provider_error name rest := rfl
      rw [hmap]
      by_cases hep : e.1 = p
      · have hen : ¬(e.1 = name) := fun hx => h (hep ▸ hx)
        rw [if_neg hen]
        simp only [lookupSearchProvider]
        rw [if_pos hep, if_pos hep]
      · by_cases hen : e.1 = name
        · rw [if_pos hen]
          simp only [lookupSearchProvider]
          rw [if_neg hep, if_neg hep]
          exact ih
        · rw [if_neg hen]
          simp only [lookupSearchProvider]
          rw [if_neg hep, if_neg hep]
          exact ih

theorem avail_record_error_other (ps : SearchRegistry) (name p : String)
    (h : p ≠ name) :
    is_provider_available (record_provider_error name ps) p
      = is_provider_available ps p := by
  unfold is_provider_available
  rw [lookup_record_error_other ps name p h]

theorem searchLoop_excludes (beh : SearchBeh) (now : Int) (key : String) (p : String) :
    ∀ (order : List String) (st : SearchState) (acc : List String),
      is_provider_available st.providers p = false → p ∉ acc →
      p ∉ (searchLoop beh now key order st acc).2.2 ∧
      is_provider_available (searchLoop beh now key order st acc).2.1.providers p
        = false := by
  intro order
  induction order with
  | nil =>
      intro st acc hp hacc
      exact ⟨hacc, hp⟩
  | cons name rest ih =>
      intro st acc hp hacc
      by_cases hav : is_provider_available st.providers name = true
      · have hne : p ≠ name := by
          intro hx
          rw [hx, hav] at hp
          exact Bool.noConfusion hp
        have haccn : p ∉ acc ++ [name] := by
          simp only [List.mem_append, List.mem_singleton]
          exact fun hx => hx.elim (fun h1 => hacc h1) (fun h2 => hne h2)
        simp only [searchLoop, hav, Bool.not_true, Bool.false_eq_true, if_false]
        by_cases hk : (knownSearchProviders.contains name) = true
        · simp only [hk, Bool.not_true, Bool.false_eq_true, if_false]
          cases hbeh : beh name with
          | none =>
              apply ih { st with providers := record_provider_error name st.providers }
                  (acc ++ [name])
              · rw [avail_record_error_other _ _ _ hne]
                exact hp
              · exact haccn
          | some results =>
              by_cases hres : results.isEmpty = true
              · simp only [hres, Bool.not_true, Bool.false_eq_true, if_false]
                exact ih st (acc ++ [name]) hp haccn
              · simp only [hres, Bool.not_false, if_true]
                by_cases hval : (validate_results results).isEmpty = true
                · simp only [hval, Bool.not_true, Bool.false_eq_true, if_false]
                  exact ih st (acc ++ [name]) hp haccn
                · simp only [hval, Bool.not_false, if_true]
                  exact ⟨haccn, hp⟩
        · simp only [hk, Bool.not_false, if_true]
          exact ih st acc hp hacc
      · have hav2 : is_provider_available st.providers name = false :=
          Bool.eq_false_iff.mpr hav
        simp only [searchLoop, hav2, Bool.not_false, if_true]
        exact ih st acc hp hacc

theorem compProviderBlock_trace (s : CompStep) (guard : Bool) (name label : String)
    (behOut : Option (List PyVal)) (flt : Option (PyVal → Except String Bool))
    (noResultErr : Option String) :
    (compProviderBlock s guard name label behOut flt noResultErr).trace
      = if guard then s.trace ++ [name] else s.trace := by
  unfold compProviderBlock
  split
  · split
    · rfl
    · split
      · split <;> rfl
      · split <;> rfl
  · rfl

theorem compProviderBlock_not_mem (s : CompStep) (guard : Bool) (name label : String)
    (behOut : Option (List PyVal)) (flt : Option (PyVal → Except String Bool))
    (noResultErr : Option String) (p : String)
    (hs : p ∉ s.trace) (hg : guard = true → p ≠ name) :
    p ∉ (compProviderBlock s guard name label behOut flt noResultErr).trace := by
  rw [compProviderBlock_trace]
  by_cases hgt : guard = true
  · rw [if_pos hgt]
    simp only [List.mem_append, List.mem_singleton]
    exact fun hx => hx.elim (fun h1 => hs h1) (fun h2 => hg hgt h2)
  · rw [if_neg hgt]
    exact hs

theorem comprehensive_search_trace (st : SearchState) (beh : SearchBeh)
    (query : String) (numResults : Nat) (nowIso : String) :
    (comprehensive_search st beh query numResults nowIso).2
      = (compSteps st beh numResults).trace := by
  simp only [comprehensive_search]
  split
  · split <;> rfl
  · rfl

theorem lookup_zero_map (ps : SearchRegistry) (p : String) (prov : SearchProvider)
    (hl : lookupSearchProvider ps p = some prov) :
    lookupSearchProvider
        (ps.map (fun e => if e.1 = p then (e.1, { e.2 with error_count := 0 }) else e)) p
      = some { prov with error_count := 0 } := by
  induction ps with
  | nil => exact Option.noConfusion hl
  | cons e rest ih =>
      rw [List.map_cons]
      by_cases he : e.1 = p
      · rw [if_pos he]
        simp only [lookupSearchProvider] at hl ⊢
        rw [if_pos he] at hl ⊢
        cases hl
        rfl
      · rw [if_neg he]
        simp only [lookupSearchProvider] at hl ⊢
        rw [if_neg he] at hl ⊢
        exact ih hl

theorem lookup_reset_some (ps : SearchRegistry) (p : String) (prov : SearchProvider)
    (hl : lookupSearchProvider ps p = some prov) :
    lookupSearchProvider (reset_provider_errors (some p) ps) p
      = some { prov with error_count := 0 } :=
  lookup_zero_map ps p prov hl

/-- Claim C10: a search provider whose error count has reached its limit
is unavailable, is never invoked by `search_with_fallback` (for any query,
time and provider behaviour) or by `comprehensive_search`, remains
unavailable after any such call, and only an explicit
`reset_provider_errors` zeroes its counter. -/
theorem c10_search_circuit (st : SearchState) (beh : SearchBeh) (now : Int)
    (q : String) (n : Nat) (nowIso : String) (p : String) (prov : SearchProvider)
    (hp : is_provider_available st.providers p = false) :
    (p ∉ (search_with_fallback st beh now q n).2.2) ∧
    (is_provider_available (search_with_fallback st beh now q n).2.1.providers p
      = false) ∧
    (p ∉ (comprehensive_search st beh q n nowIso).2) ∧
    (lookupSearchProvider st.providers p = some prov →
      lookupSearchProvider (reset_provider_errors (some p) st.providers) p
        = some { prov with error_count := 0 }) := by
  have hsearch : p ∉ (search_with_fallback st beh now q n).2.2 ∧
      is_provider_available (search_with_fallback st beh now q n).2.1.providers p
        = false := by
    unfold search_with_fallback
    by_cases hq : q.trim.isEmpty = true
    · simp only [hq, if_true]
      exact ⟨List.not_mem_nil p, hp⟩
    · simp only [hq, Bool.false_eq_true, if_false]
      cases hc : (get_from_cache st.cache (generate_cache_key q.trim n) now).1 with
      | none =>
          exact searchLoop_excludes beh now _ p _ _ _ hp (List.not_mem_nil p)
      | some results =>
          by_cases hres : results.isEmpty = true
          · simp only [hres, Bool.not_true, Bool.false_eq_true, if_false]
            exact searchLoop_excludes beh now _ p _ _ _ hp (List.not_mem_nil p)
          · simp only [hres, Bool.not_false, if_true]
            exact ⟨List.not_mem_nil p, hp⟩
  refine ⟨hsearch.1, hsearch.2, ?_, ?_⟩
  · rw [comprehensive_search_trace]
    unfold compSteps
    apply compProviderBlock_not_mem
    · apply compProviderBlock_not_mem
      · apply compProviderBlock_not_mem
        · apply compProviderBlock_not_mem
          · exact List.not_mem_nil p
          · intro hg hpe
            rw [hpe] at hp
            rw [hp] at hg
            exact Bool.noConfusion hg
        · intro hg hpe
          rw [Bool.and_eq_true] at hg
          rw [hpe] at hp
          rw [hp] at hg
          exact Bool.noConfusion hg.2
      · intro hg hpe
        rw [Bool.and_eq_true] at hg
        rw [hpe] at hp
        rw [hp] at hg
        exact Bool.noConfusion hg.2
    · intro hg hpe
      rw [Bool.and_eq_true] at hg
      rw [hpe] at hp
      rw [hp] at hg
      exact Bool.noConfusion hg.2
  · intro hl
    exact lookup_reset_some st.providers p prov hl

/-- Witness for C10: exa at its error limit, bing healthy, every provider
raising; exa appears in no trace and stays unavailable. -/
theorem c10_search_circuit_witness :
    is_provider_available c10State.providers "exa" = false ∧
    ("exa" ∉ (search_with_fallback c10State c10Beh 0 "mercado" 10).2.2) ∧
    (lookupSearchProvider (reset_provider_errors (some "exa") c10State.providers) "exa"
      = some { enabled := true, priority := 1, error_count := 0, max_errors := 3 }) :=
  ⟨by decide,
   (c10_search_circuit c10State c10Beh 0 "mercado" 10 "t" "exa"
      { enabled := true, priority := 1, error_count := 3, max_errors := 3 }
      (by decide)).1,
   (c10_search_circuit c10State c10Beh 0 "mercado" 10 "t" "exa"
      { enabled := true, priority := 1, error_count := 3, max_errors := 3 }
      (by decide)).2.2.2 rfl⟩

/-- Claim C2 counterexample: with the mental-drivers service registered
but its only operation raising on every call (every provider of that
stage fails), the run still completes with success true, but the stored
stage result has status method_not_found, not fallback. -/
theorem c2_counterexample :
    ((PyVal.dict (execute_async_analysis c2Env none c2Data "s2").analysisData).get
        "drivers_mentais_customizados").get "status" = PyVal.str "method_not_found" ∧
    (execute_synchronized_analysis c2Env none c2Data "s2").result.get "success"
      = PyVal.bool true :=
  ⟨rfl, rfl⟩

/-- Claim C2 (amended): for every service environment, a run whose
callback never raises always completes — success true, status completed,
all thirteen phases fired, a result stored for every stage including the
consolidated web/avatar/drivers chain; the mental-drivers stage stores
the status-fallback payload when its service is unregistered, but stores
the router's method_not_found diagnostic (not a fallback-status payload)
when the service is registered and every operation fails. -/
theorem c2_degraded_run_amended (env : OrchEnv) (cb : Option CbBeh) (data : PyVal)
    (sid : String) (es : List (String × PyVal)) (hd : data = PyVal.dict es)
    (ht : data.truthy = true)
    (hcb : ∀ i msg, cbCall cb i msg = Except.ok ()) :
    (execute_async_analysis env cb data sid).okRun = true ∧
    (execute_async_analysis env cb data sid).execStatus = "completed" ∧
    (execute_synchronized_analysis env cb data sid).result.get "success"
      = PyVal.bool true ∧
    (execute_async_analysis env cb data sid).progressCalls = progressTrace 13 ∧
    ((execute_async_analysis env cb data sid).analysisData.map (fun e => e.1)
      = ["session_id", "projeto_dados", "pesquisa_web_massiva",
         "avatar_ultra_detalhado", "drivers_mentais_customizados",
         "provas_visuais_arsenal", "sistema_anti_objecao", "pre_pitch_invisivel",
         "predicoes_futuro_detalhadas", "analise_concorrencia",
         "insights_exclusivos", "palavras_chave_estrategicas",
         "funil_vendas_otimizado", "analise_redes_sociais"]) ∧
    ((PyVal.dict (execute_async_analysis env cb data sid).analysisData).get
        "drivers_mentais_customizados"
      = execute_real_mental_drivers env.mentalDrivers
          (execute_real_avatar_analysis env.aiAvatar
            (execute_real_web_search env.web data)
            (execute_real_social_analysis env.social data) data) data sid) ∧
    (∀ (avatar : PyVal), env.mentalDrivers.registered = false →
      execute_real_mental_drivers env.mentalDrivers avatar data sid
        = mentalDriversFallback) ∧
    (∀ (avatar : PyVal), env.mentalDrivers.registered = true →
      (∀ p ∈ mentalDriversPatterns, patternFails env.mentalDrivers.table p) →
      execute_real_mental_drivers env.mentalDrivers avatar data sid
        = methodNotFoundDict "mental_drivers" (tableKeys env.mentalDrivers.table)
            mentalDriversPatterns) := by
  have hnone : execute_async_analysis env cb data sid
      = execute_async_analysis env none data sid := by
    unfold execute_async_analysis
    rw [hcb 1 pm1, hcb 2 pm2, hcb 3 pm3, hcb 4 pm4, hcb 5 pm5, hcb 6 pm6, hcb 7 pm7,
        hcb 8 pm8, hcb 9 pm9, hcb 10 pm10, hcb 11 pm11, hcb 12 pm12, hcb 13 pm13]
    rfl
  refine ⟨?_, ?_, ?_, ?_, ?_, ?_, ?_, ?_⟩
  · rw [hnone]; rfl
  · rw [hnone]; rfl
  · unfold execute_synchronized_analysis
    rw [ht, hnone]
    rfl
  · rw [hnone]; rfl
  · rw [hnone]; rfl
  · rw [hnone]; rfl
  · intro avatar hreg
    simp [execute_real_mental_drivers, mentalDriversBody, hreg, pure, Except.pure]
  · intro avatar hreg hfail
    have hr : safeCallV env.mentalDrivers "mental_drivers" mentalDriversPatterns
        = methodNotFoundDict "mental_drivers" (tableKeys env.mentalDrivers.table)
            mentalDriversPatterns := by
      unfold safeCallV safe_call_service_method
      rw [hreg]
      simpa using tryPatterns_all_fail "mental_drivers" env.mentalDrivers.table
        mentalDriversPatterns mentalDriversPatterns [] hfail
    simp [execute_real_mental_drivers, mentalDriversBody, hreg, hd, pyGetE, hr,
      PyVal.pyOr, PyVal.truthy, methodNotFoundDict, pure, Except.pure, Bind.bind,
      Except.bind]

/-- Witness for the amended C2: the all-services-missing environment with
the fitness request and no callback. -/
theorem c2_degraded_run_amended_witness :
    (execute_async_analysis minimalOrchEnv none c2Data "sw").okRun = true ∧
    (execute_synchronized_analysis minimalOrchEnv none c2Data "sw").result.get "success"
      = PyVal.bool true ∧
    execute_real_mental_drivers minimalOrchEnv.mentalDrivers PyVal.none_ c2Data "sw"
      = mentalDriversFallback :=
  ⟨(c2_degraded_run_amended minimalOrchEnv none c2Data "sw"
      [("segmento", .str "fitness"), ("produto", .str "coaching app")]
      rfl rfl (fun _ _ => rfl)).1,
   (c2_degraded_run_amended minimalOrchEnv none c2Data "sw"
      [("segmento", .str "fitness"), ("produto", .str "coaching app")]
      rfl rfl (fun _ _ => rfl)).2.2.1,
   (c2_degraded_run_amended minimalOrchEnv none c2Data "sw"
      [("segmento", .str "fitness"), ("produto", .str "coaching app")]
      rfl rfl (fun _ _ => rfl)).2.2.2.2.2.2.1 PyVal.none_ rfl⟩

theorem async_err_fields (env : OrchEnv) (cb : Option CbBeh) (data : PyVal)
    (sid : String)
    (h : (execute_async_analysis env cb data sid).okRun = false) :
    (execute_async_analysis env cb data sid).execStatus = "running" ∧
    (execute_async_analysis env cb data sid).analysisData = [] := by
  unfold execute_async_analysis at h ⊢
  cases h1 : cbCall cb 1 pm1 with
  | error e => exact ⟨rfl, rfl⟩
  | ok u =>
  cases u
  rw [h1] at h
  cases h2 : cbCall cb 2 pm2 with
  | error e => exact ⟨rfl, rfl⟩
  | ok u =>
  cases u
  rw [h2] at h
  cases h3 : cbCall cb 3 pm3 with
  | error e => exact ⟨rfl, rfl⟩
  | ok u =>
  cases u
  rw [h3] at h
  cases h4 : cbCall cb 4 pm4 with
  | error e => exact ⟨rfl, rfl⟩
  | ok u =>
  cases u
  rw [h4] at h
  cases h5 : cbCall cb 5 pm5 with
  | error e => exact ⟨rfl, rfl⟩
  | ok u =>
  cases u
  rw [h5] at h
  cases h6 : cbCall cb 6 pm6 with
  | error e => exact ⟨rfl, rfl⟩
  | ok u =>
  cases u
  rw [h6] at h
  cases h7 : cbCall cb 7 pm7 with
  | error e => exact ⟨rfl, rfl⟩
  | ok u =>
  cases u
  rw [h7] at h
  cases h8 : cbCall cb 8 pm8 with
  | error e => exact ⟨rfl, rfl⟩
  | ok u =>
  cases u
  rw [h8] at h
  cases h9 : cbCall cb 9 pm9 with
  | error e => exact ⟨rfl, rfl⟩
  | ok u =>
  cases u
  rw [h9] at h
  cases h10 : cbCall cb 10 pm10 with
  | error e => exact ⟨rfl, rfl⟩
  | ok u =>
  cases u
  rw [h10] at h
  cases h11 : cbCall cb 11 pm11 with
  | error e => exact ⟨rfl, rfl⟩
  | ok u =>
  cases u
  rw [h11] at h
  cases h12 : cbCall cb 12 pm12 with
  | error e => exact ⟨rfl, rfl⟩
  | ok u =>
  cases u
  rw [h12] at h
  cases h13 : cbCall cb 13 pm13 with
  | error e => exact ⟨rfl, rfl⟩
  | ok u =>
  cases u
  rw [h13] at h
  exact Bool.noConfusion h

/-- Claim C3 counterexample: a run whose consolidation raises internally
(websailor returns a processed_results list holding a bare string, making
`_gerar_relatorio_pesquisa_web` raise) does not end in Error with a
success-false envelope: the exception is caught inside
`_generate_final_report_async`, the report comes back with status error,
and the run still completes with success true. -/
theorem c3_counterexample :
    exceptIsOk (finalReportBody c3Env.report
        (execute_async_analysis c3Env none c3Data "s3").analysisData "s3") = false ∧
    ((execute_synchronized_analysis c3Env none c3Data "s3").result.get "report").get
        "status" = PyVal.str "error" ∧
    (execute_synchronized_analysis c3Env none c3Data "s3").result.get "success"
      = PyVal.bool true ∧
    (execute_async_analysis c3Env none c3Data "s3").execStatus = "completed" :=
  ⟨rfl, rfl, rfl, rfl⟩

/-- Claim C3 (amended): an exception raised during consolidation is caught
inside `_generate_final_report_async` itself and converted into an error
*report* (status error, the message, the error_fallback generator tag);
the run then still completes with success true for every environment,
including ones whose consolidation raises.  The only way to the top-level
failure envelope `[success false, session_id, error, emergency_mode]` is
an exception escaping the coroutine (in the source, the progress-callback
call sites); that envelope carries no stage results and the session
status stays running. -/
theorem c3_consolidation_amended :
    (∀ (renv : ReportEnv) (cad : List (String × PyVal)) (sid m : String),
      finalReportBody renv cad sid = .error m →
      generate_final_report renv cad sid
        = .dict [("status", .str "error"), ("session_id", .str sid),
                 ("timestamp", .str renv.timestamp), ("error", .str m),
                 ("report_generator", .str "error_fallback")]) ∧
    (∀ (env : OrchEnv) (cb : Option CbBeh) (data : PyVal) (sid : String),
      data.truthy = true → (∀ i msg, cbCall cb i msg = Except.ok ()) →
      (execute_synchronized_analysis env cb data sid).result.get "success"
        = PyVal.bool true ∧
      (execute_async_analysis env cb data sid).execStatus = "completed") ∧
    (∀ (env : OrchEnv) (cb : Option CbBeh) (data : PyVal) (sid : String),
      data.truthy = true →
      (execute_async_analysis env cb data sid).okRun = false →
      (execute_synchronized_analysis env cb data sid).result
        = .dict [("success", .bool false), ("session_id", .str sid),
                 ("error", .str (execute_async_analysis env cb data sid).errMsg),
                 ("emergency_mode", .bool true)] ∧
      (execute_async_analysis env cb data sid).execStatus = "running" ∧
      (execute_async_analysis env cb data sid).analysisData = []) := by
  refine ⟨?_, ?_, ?_⟩
  · intro renv cad sid m h
    unfold generate_final_report
    rw [h]
  · intro env cb data sid ht hcb
    have hnone : execute_async_analysis env cb data sid
        = execute_async_analysis env none data sid := by
      unfold execute_async_analysis
      rw [hcb 1 pm1, hcb 2 pm2, hcb 3 pm3, hcb 4 pm4, hcb 5 pm5, hcb 6 pm6, hcb 7 pm7,
          hcb 8 pm8, hcb 9 pm9, hcb 10 pm10, hcb 11 pm11, hcb 12 pm12, hcb 13 pm13]
      rfl
    constructor
    · unfold execute_synchronized_analysis
      rw [ht, hnone]
      rfl
    · rw [hnone]; rfl
  · intro env cb data sid ht hko
    have hf := async_err_fields env cb data sid hko
    refine ⟨?_, hf.1, hf.2⟩
    unfold execute_synchronized_analysis
    rw [ht]
    simp only [Bool.not_true, Bool.false_eq_true, if_false, hko]

/-- Witness for the amended C3: the stage data whose web entry makes the
fallback consolidation raise an AttributeError. -/
theorem c3_consolidation_amended_witness :
    generate_final_report minimalReportEnv c3WitCad "sw"
      = .dict [("status", .str "error"), ("session_id", .str "sw"),
               ("timestamp", .str minimalReportEnv.timestamp),
               ("error", .str "AttributeError: object has no attribute get (key title)"),
               ("report_generator", .str "error_fallback")] :=
  c3_consolidation_amended.1 minimalReportEnv c3WitCad "sw"
    "AttributeError: object has no attribute get (key title)" rfl

/-- Claim C4 counterexample: with a callback that raises at its first
invocation, the run aborts with a success-false envelope, no stage runs
and no progress call completes — while the same run with no callback
succeeds.  The callback failure is not swallowed with an unchanged
outcome. -/
theorem c4_counterexample :
    (execute_synchronized_analysis minimalOrchEnv (some c4Cb) c4Data "s4").result.get
        "success" = PyVal.bool false ∧
    (execute_synchronized_analysis minimalOrchEnv none c4Data "s4").result.get
        "success" = PyVal.bool true ∧
    (execute_async_analysis minimalOrchEnv (some c4Cb) c4Data "s4").stagesRun = 0 ∧
    (execute_async_analysis minimalOrchEnv (some c4Cb) c4Data "s4").progressCalls = [] :=
  ⟨rfl, rfl, rfl, rfl⟩

/-- Claim C4 (amended): the progress callback is invoked synchronously
before each stage (thirteen calls in phase order when it never raises,
and the run then succeeds); but an exception raised by the callback is
not swallowed at the call site: it aborts the run — with a raise at the
first invocation no stage executes — and is caught only at the outer
boundary of `execute_synchronized_analysis`, which returns the
success-false emergency envelope instead of the normal result. -/
theorem c4_progress_callback_amended :
    (∀ (env : OrchEnv) (cb : Option CbBeh) (data : PyVal) (sid : String),
      data.truthy = true → (∀ i msg, cbCall cb i msg = Except.ok ()) →
      (execute_async_analysis env cb data sid).progressCalls = progressTrace 13 ∧
      (execute_synchronized_analysis env cb data sid).result.get "success"
        = PyVal.bool true) ∧
    (∀ (env : OrchEnv) (f : CbBeh) (data : PyVal) (sid e : String),
      data.truthy = true → f 1 pm1 = .error e →
      (execute_async_analysis env (some f) data sid).okRun = false ∧
      (execute_async_analysis env (some f) data sid).stagesRun = 0 ∧
      (execute_async_analysis env (some f) data sid).progressCalls = [] ∧
      (execute_synchronized_analysis env (some f) data sid).result
        = .dict [("success", .bool false), ("session_id", .str sid),
                 ("error", .str e), ("emergency_mode", .bool true)]) ∧
    (∀ (env : OrchEnv) (cb : Option CbBeh) (data : PyVal) (sid : String),
      data.truthy = true →
      (execute_async_analysis env cb data sid).okRun = false →
      (execute_synchronized_analysis env cb data sid).result.get "success"
        = PyVal.bool false) := by
  refine ⟨?_, ?_, ?_⟩
  · intro env cb data sid ht hcb
    have hnone : execute_async_analysis env cb data sid
        = execute_async_analysis env none data sid := by
      unfold execute_async_analysis
      rw [hcb 1 pm1, hcb 2 pm2, hcb 3 pm3, hcb 4 pm4, hcb 5 pm5, hcb 6 pm6, hcb 7 pm7,
          hcb 8 pm8, hcb 9 pm9, hcb 10 pm10, hcb 11 pm11, hcb 12 pm12, hcb 13 pm13]
      rfl
    constructor
    · rw [hnone]; rfl
    · unfold execute_synchronized_analysis
      rw [ht, hnone]
      rfl
  · intro env f data sid e ht hf
    have h1 : cbCall (some f) 1 pm1 = .error e := hf
    have hasync : execute_async_analysis env (some f) data sid = mkAsyncErr e 0 := by
      unfold execute_async_analysis
      rw [h1]
    refine ⟨by rw [hasync]; rfl, by rw [hasync]; rfl, by rw [hasync]; rfl, ?_⟩
    unfold execute_synchronized_analysis
    rw [ht]
    simp only [Bool.not_true, Bool.false_eq_true, if_false, hasync, mkAsyncErr]
  · intro env cb data sid ht hko
    unfold execute_synchronized_analysis
    rw [ht]
    simp only [Bool.not_true, Bool.false_eq_true, if_false, hko]
    rfl

/-- Witness for the amended C4: the always-raising callback at the
fitness request. -/
theorem c4_progress_callback_amended_witness :
    (execute_async_analysis minimalOrchEnv (some c4Cb) c4Data "sw").okRun = false ∧
    (execute_synchronized_analysis minimalOrchEnv (some c4Cb) c4Data "sw").result
      = .dict [("success", .bool false), ("session_id", .str "sw"),
               ("error", .str "callback boom"), ("emergency_mode", .bool true)] :=
  ⟨(c4_progress_callback_amended.2.1 minimalOrchEnv c4Cb c4Data "sw" "callback boom"
      rfl rfl).1,
   (c4_progress_callback_amended.2.1 minimalOrchEnv c4Cb c4Data "sw" "callback boom"
      rfl rfl).2.2.2⟩
